import Mathlib

/-!
Verification of the badnest Nest API client (src/api.py).

The client is shallowly embedded: JSON documents become the inductive `JVal`,
Python dictionaries become function-valued finite maps, Python exceptions
become the `PyError` type threaded through `Except`, and each method of
`NestAPI` becomes a Lean function over an explicit `NestState`.  Backend
responses are supplied by oracles, so every network interaction of the code is
a parameter of the corresponding Lean function.
-/

set_option maxHeartbeats 1000000

/-- JSON-like values as manipulated by the Python client (simplejson output). -/
inductive JVal where
  | null
  | jbool (b : Bool)
  | jnum (n : Int)
  | jstr (s : String)
  | jarr (xs : List JVal)
  | jobj (kvs : List (String × JVal))

mutual

def JVal.beq : JVal → JVal → Bool
  | .null, .null => true
  | .jbool a, .jbool b => a == b
  | .jnum a, .jnum b => a == b
  | .jstr a, .jstr b => a == b
  | .jarr xs, .jarr ys => JVal.beqArr xs ys
  | .jobj xs, .jobj ys => JVal.beqObj xs ys
  | _, _ => false

def JVal.beqArr : List JVal → List JVal → Bool
  | [], [] => true
  | x :: xs, y :: ys => JVal.beq x y && JVal.beqArr xs ys
  | _, _ => false

def JVal.beqObj : List (String × JVal) → List (String × JVal) → Bool
  | [], [] => true
  | (k, v) :: xs, (k', v') :: ys => k == k' && JVal.beq v v' && JVal.beqObj xs ys
  | _, _ => false

end

theorem JVal.beq_iff : ∀ a b : JVal, JVal.beq a b = true ↔ a = b := by
  intro a b
  refine JVal.beq.induct (fun a b => JVal.beq a b = true ↔ a = b)
    (fun xs ys => JVal.beqObj xs ys = true ↔ xs = ys)
    (fun xs ys => JVal.beqArr xs ys = true ↔ xs = ys)
    ?_ ?_ ?_ ?_ ?_ ?_ ?_ ?_ ?_ ?_ ?_ ?_ ?_ a b
  case refine_7 =>
    intro t u h1 h2 h3 h4 h5 h6
    cases t <;> cases u <;>
      first
        | exact (h1 rfl rfl).elim
        | exact (h2 _ _ rfl rfl).elim
        | exact (h3 _ _ rfl rfl).elim
        | exact (h4 _ _ rfl rfl).elim
        | exact (h5 _ _ rfl rfl).elim
        | exact (h6 _ _ rfl rfl).elim
        | simp [JVal.beq]
  case refine_10 =>
    intro t u h1 h2
    cases t with
    | nil =>
      cases u with
      | nil => exact (h1 rfl rfl).elim
      | cons q u' => simp [JVal.beqArr]
    | cons p t' =>
      cases u with
      | nil => simp [JVal.beqArr]
      | cons q u' => exact (h2 p t' q u' rfl rfl).elim
  case refine_13 =>
    intro t u h1 h2
    cases t with
    | nil =>
      cases u with
      | nil => exact (h1 rfl rfl).elim
      | cons q u' => simp [JVal.beqObj]
    | cons p t' =>
      cases u with
      | nil => simp [JVal.beqObj]
      | cons q u' =>
        obtain ⟨k, v⟩ := p
        obtain ⟨k', v'⟩ := q
        exact (h2 k v t' k' v' u' rfl rfl).elim
  all_goals (intros; simp_all [JVal.beq, JVal.beqArr, JVal.beqObj])

instance : DecidableEq JVal := fun a b => decidable_of_iff _ (JVal.beq_iff a b)

/-- Python exception classes that the client's handlers distinguish.
`cancelledError` models asyncio.CancelledError, which since Python 3.8 derives
from BaseException and is therefore not caught by an `except Exception` clause;
every other constructor models an Exception subclass. -/
inductive PyError where
  | keyError
  | indexError
  | typeError
  | jsonDecodeError
  | clientError
  | cancelledError
deriving DecidableEq

/-- The classes named in update()'s first handler:
`except (simplejson.errors.JSONDecodeError, KeyError, IndexError)`. -/
def isDataShapeError : PyError → Bool
  | .keyError => true
  | .indexError => true
  | .jsonDecodeError => true
  | _ => false

/-- Whether the error is an Exception subclass (matched by `except Exception`). -/
def isExceptionClass : PyError → Bool
  | .cancelledError => false
  | _ => true

/-! Python str methods (`split`, `startswith`, `replace`) implemented on
character lists, so that concrete runs reduce inside the kernel.  `stripPat`
removes a literal pattern from the front when it matches.  The fuel of the
recursions is the subject's length, which suffices for the non-empty
patterns the client uses. -/

/-- Strip a pattern from the front of a character list. -/
def stripPat : List Char → List Char → Option (List Char)
  | [], rest => some rest
  | _, [] => none
  | a :: as, b :: bs => if a = b then stripPat as bs else none

/-- Worker for `pySplit`. -/
def splitGo (sep : List Char) : Nat → List Char → List Char → List (List Char)
  | _, acc, [] => [acc.reverse]
  | 0, acc, l => [acc.reverse ++ l]
  | Nat.succ n, acc, c :: rest =>
    match stripPat sep (c :: rest) with
    | some rem => acc.reverse :: splitGo sep n [] rem
    | none => splitGo sep n (c :: acc) rest

/-- Python `s.split(sep)` for a non-empty separator. -/
def pySplit (s sep : String) : List String :=
  (splitGo sep.data s.data.length [] s.data).map fun l => String.mk l

/-- Python `s.startswith(pre)`. -/
def pyStartswith (s pre : String) : Bool :=
  (stripPat pre.data s.data).isSome

/-- Worker for `pyReplace`. -/
def replaceGo (pat repl : List Char) : Nat → List Char → List Char
  | _, [] => []
  | 0, l => l
  | Nat.succ n, c :: rest =>
    match stripPat pat (c :: rest) with
    | some rem => repl ++ replaceGo pat repl n rem
    | none => c :: replaceGo pat repl n rest

/-- Python `s.replace(pat, repl)`, every occurrence, non-empty pattern. -/
def pyReplace (s pat repl : String) : String :=
  String.mk (replaceGo pat.data repl.data s.data.length s.data)

/-- First-match association lookup, the semantics of indexing a Python dict
represented as a key-value list. -/
def jlookup : List (String × JVal) → String → Option JVal
  | [], _ => none
  | (k, v) :: t, key => if k = key then some v else jlookup t key

/-- `d[k]` on a JSON value: KeyError on a missing dict key, TypeError when the
value is not a dict. -/
def jGetE : JVal → String → Except PyError JVal
  | .jobj kvs, k =>
    match jlookup kvs k with
    | some v => .ok v
    | none => .error .keyError
  | _, _ => .error .typeError

/-- `d.get(k, default)`; attribute access on a non-dict raises (modelled as
TypeError, the distinction from AttributeError is irrelevant to the handlers,
both being plain Exception subclasses). -/
def jGetDE : JVal → String → JVal → Except PyError JVal
  | .jobj kvs, k, d => .ok ((jlookup kvs k).getD d)
  | _, _, _ => .error .typeError

/-- `k in d` on a dict (key membership); TypeError-class failure otherwise is
not needed where this is used, the subject is already known to be a dict. -/
def jHasKeyE : JVal → String → Except PyError Bool
  | .jobj kvs, k => .ok (jlookup kvs k).isSome
  | _, _ => .error .typeError

/-- `xs[i]` with an integer index: IndexError past the end of a list or
string, KeyError on a dict (our dict keys are strings), TypeError otherwise. -/
def jIdxE : JVal → Nat → Except PyError JVal
  | .jarr xs, i =>
    match xs.get? i with
    | some v => .ok v
    | none => .error .indexError
  | .jstr s, i =>
    match s.data.get? i with
    | some c => .ok (.jstr (String.mk [c]))
    | none => .error .indexError
  | .jobj _, _ => .error .keyError
  | _, _ => .error .typeError

/-- A value used where the code expects a str (for `.split`, `.startswith`,
`.replace`); non-strings raise. -/
def jAsStr : JVal → Except PyError String
  | .jstr s => .ok s
  | _ => .error .typeError

/-- Iterating a JSON value with a for-loop: lists yield elements, dicts yield
their keys, strings yield one-character strings, anything else raises. -/
def jAsIter : JVal → Except PyError (List JVal)
  | .jarr xs => .ok xs
  | .jobj kvs => .ok (kvs.map fun kv => .jstr kv.1)
  | .jstr s => .ok (s.data.map fun c => .jstr (String.mk [c]))
  | _ => .error .typeError

/-- Python truthiness of a JSON value. -/
def jTruthy : JVal → Bool
  | .null => false
  | .jbool b => b
  | .jnum n => decide (n ≠ 0)
  | .jstr s => decide (s ≠ "")
  | .jarr xs => !xs.isEmpty
  | .jobj kvs => !kvs.isEmpty

/-- str() of a value, used only for f-string interpolation of the optional
description; container renderings are abbreviated, the claims never observe
them beyond determinism. -/
def pyStr : JVal → String
  | .jstr s => s
  | .jbool true => "True"
  | .jbool false => "False"
  | .null => "None"
  | .jnum n => toString n
  | .jarr _ => "<arr>"
  | .jobj _ => "<obj>"

/-- `v + t` where the code concatenates a display-name suffix; TypeError when
the current name is not a string. -/
def jConcatStr : JVal → String → Except PyError JVal
  | .jstr s, t => .ok (.jstr (s ++ t))
  | _, _ => .error .typeError

/-- `x in container` for a string x: list membership, substring test on a
string, key membership on a dict. -/
def jContainsE : JVal → String → Except PyError Bool
  | .jarr xs, x => .ok (xs.contains (.jstr x))
  | .jstr s, x => .ok (decide ((pySplit s x).length > 1))
  | .jobj kvs, x => .ok (jlookup kvs x).isSome
  | _, _ => .error .typeError

/-- `xs[i]` on an already-extracted Lean list (the result of str.split). -/
def listIdxE {α : Type} : List α → Nat → Except PyError α
  | xs, i =>
    match xs.get? i with
    | some v => .ok v
    | none => .error .indexError

section Maps

variable {κ ν : Type} [DecidableEq κ]

/-- Python dict assignment `m[k] = v` on a function-valued map. -/
def setM (m : κ → Option ν) (k : κ) (v : ν) : κ → Option ν :=
  fun k' => if k' = k then some v else m k'

/-- Apply a list of assignments in order (later assignments win). -/
def applyM (L : List (κ × ν)) (m : κ → Option ν) : κ → Option ν :=
  L.foldl (fun m kv => setM m kv.1 kv.2) m

/-- The value written last to key `k` by the assignment list, if any. -/
def lastM : List (κ × ν) → κ → Option ν
  | [], _ => none
  | (k', v) :: t, k =>
    match lastM t k with
    | some u => some u
    | none => if k = k' then some v else none

theorem setM_self {m : κ → Option ν} {k : κ} {v : ν} (h : m k = some v) :
    setM m k v = m := by
  funext k'
  by_cases hk : k' = k
  · simp [setM, hk, h.symm]
  · simp [setM, hk]

theorem setM_setM_same (m : κ → Option ν) (k : κ) (a b : ν) :
    setM (setM m k a) k b = setM m k b := by
  funext k'
  by_cases hk : k' = k <;> simp [setM, hk]

theorem applyM_nil (m : κ → Option ν) : applyM [] m = m := rfl

theorem applyM_cons (k : κ) (v : ν) (L : List (κ × ν)) (m : κ → Option ν) :
    applyM ((k, v) :: L) m = applyM L (setM m k v) := rfl

theorem applyM_append (L M : List (κ × ν)) (m : κ → Option ν) :
    applyM (L ++ M) m = applyM M (applyM L m) := by
  simp [applyM, List.foldl_append]

theorem applyM_lookup (L : List (κ × ν)) (m : κ → Option ν) (k : κ) :
    applyM L m k = match lastM L k with
      | some v => some v
      | none => m k := by
  induction L generalizing m with
  | nil => simp [applyM, lastM]
  | cons kv t ih =>
    obtain ⟨k', v⟩ := kv
    rw [applyM_cons, ih]
    rcases h : lastM t k with _ | u
    · by_cases hk : k = k'
      · subst hk; simp [lastM, h, setM]
      · simp [lastM, h, hk, setM]
    · simp [lastM, h]

theorem applyM_idem (L : List (κ × ν)) (m : κ → Option ν) :
    applyM L (applyM L m) = applyM L m := by
  funext k
  rw [applyM_lookup, applyM_lookup]
  cases lastM L k <;> simp

theorem applyM_isSome (L : List (κ × ν)) (m : κ → Option ν) (k : κ) :
    (applyM L m k).isSome = ((lastM L k).isSome || (m k).isSome) := by
  rw [applyM_lookup]
  cases lastM L k <;> simp

end Maps

/-! ## Client state

`NestAPI.__init__` fields that the verified methods touch.  Per-device records
and the device table itself are function-valued maps, matching Python dict
semantics under `setM`. -/

/-- One device record: a dict from field name to value. -/
def Rec : Type := String → Option JVal

/-- The empty record seeded at discovery time. -/
def emptyRec : Rec := fun _ => none

/-- Mutable state of a NestAPI instance (the fields the core methods use). -/
structure NestState where
  device_data : String → Option Rec
  wheres : JVal → Option JVal
  thermostats : List String
  temperature_sensors : List String
  hotwatercontrollers : List String
  cameras : List String
  switches : List String
  protects : List String
  czfe_url : Option JVal
  access_token : String

/-- The state of a freshly constructed client (empty table and lists). -/
def initState (token : String) : NestState where
  device_data := fun _ => none
  wheres := fun _ => none
  thermostats := []
  temperature_sensors := []
  hotwatercontrollers := []
  cameras := []
  switches := []
  protects := []
  czfe_url := none
  access_token := token

/-- A transport result as seen by callers of `_do_request`: decoded JSON, or
the raw response object when the body was not JSON. -/
inductive RespVal where
  | jval (v : JVal)
  | raw
deriving DecidableEq

/-- Indexing a transport result: on a raw (non-JSON) response object,
subscripting raises (TypeError class). -/
def respGetE : RespVal → String → Except PyError JVal
  | .jval v, k => jGetE v k
  | .raw, _ => .error .typeError

/-- `.get(k, default)` on a transport result. -/
def respGetDE : RespVal → String → JVal → Except PyError JVal
  | .jval v, k, d => jGetDE v k d
  | .raw, _, _ => .error .typeError

/-- Backend oracle for one `update()` cycle: the outcome of the where-pass
app_launch call, of the device-pass app_launch call, and of the per-camera
`cameras.get_with_properties` follow-up, keyed by serial.  An `.error e`
models the exception `_do_request` raises after its retries are exhausted
(`clientError`), or an asyncio cancellation (`cancelledError`). -/
structure Backend where
  whereResp : Except PyError RespVal
  deviceResp : Except PyError RespVal
  cameraResp : String → Except PyError RespVal

/-- Running statements with Python exception semantics: a raised error carries
the state at the raise point (mutations made so far are retained). -/
def stepE {α : Type} (s : NestState) (x : Except PyError α) :
    Except (PyError × NestState) α :=
  match x with
  | .ok a => .ok a
  | .error e => .error (e, s)

/-- `self.device_data[sn]` (KeyError when the serial has no table entry). -/
def getRecE (s : NestState) (sn : String) : Except PyError Rec :=
  match s.device_data sn with
  | some r => .ok r
  | none => .error .keyError

/-- `self.device_data[sn][f] = v`. -/
def setField (s : NestState) (sn f : String) (v : JVal) :
    Except PyError NestState :=
  match s.device_data sn with
  | some r =>
    .ok { s with device_data := setM s.device_data sn (setM r f v) }
  | none => .error .keyError

/-- `self.device_data[sn][f]`. -/
def getField (s : NestState) (sn f : String) : Except PyError JVal :=
  match s.device_data sn with
  | some r =>
    match r f with
    | some v => .ok v
    | none => .error .keyError
  | none => .error .keyError

/-- `self._wheres[key]`. -/
def lookupWhere (s : NestState) (key : JVal) : Except PyError JVal :=
  match s.wheres key with
  | some v => .ok v
  | none => .error .keyError

/-- `self.device_data[sn][field] = sensor_data[key]`, the one-line copy shape
used throughout the decoders. -/
def assignSD (s : NestState) (sn field : String) (sd : JVal) (key : String) :
    Except (PyError × NestState) NestState := do
  let v ← stepE s (jGetE sd key)
  stepE s (setField s sn field v)

/-! ## update(): per-bucket decoders (`_process_*`) -/

/-- `_process_thermostat_shared` (the unused `previous_states` argument of the
source is omitted; the method never reads it). -/
def process_thermostat_shared (sn : String) (sd : JVal) (s : NestState) :
    Except (PyError × NestState) NestState := do
  let s ← assignSD s sn "current_temperature" sd "current_temperature"
  let s ← assignSD s sn "target_temperature" sd "target_temperature"
  let s ← assignSD s sn "hvac_ac_state" sd "hvac_ac_state"
  let s ← assignSD s sn "hvac_heater_state" sd "hvac_heater_state"
  let s ← assignSD s sn "target_temperature_high" sd "target_temperature_high"
  let s ← assignSD s sn "target_temperature_low" sd "target_temperature_low"
  let s ← assignSD s sn "can_heat" sd "can_heat"
  let s ← assignSD s sn "can_cool" sd "can_cool"
  let s ← assignSD s sn "mode" sd "target_temperature_type"
  let ac ← stepE s (getField s sn "hvac_ac_state")
  if jTruthy ac then
    stepE s (setField s sn "action" (.jstr "cooling"))
  else
    let ht ← stepE s (getField s sn "hvac_heater_state")
    if jTruthy ht then
      stepE s (setField s sn "action" (.jstr "heating"))
    else
      stepE s (setField s sn "action" (.jstr "off"))

/-- The three-statement display-name build shared by several decoders:
`name = wheres[sd[where_id]]; if sd.get(description): name += f suffix;
name += typeSuffix`. -/
def buildName (sn : String) (sd : JVal) (typeSuffix : String) (s : NestState) :
    Except (PyError × NestState) NestState := do
  let wid ← stepE s (jGetE sd "where_id")
  let nm ← stepE s (lookupWhere s wid)
  let s ← stepE s (setField s sn "name" nm)
  let desc ← stepE s (jGetDE sd "description" .null)
  let s ←
    if jTruthy desc then do
      let cur ← stepE s (getField s sn "name")
      let nm' ← stepE s (jConcatStr cur (" (" ++ pyStr desc ++ ")"))
      stepE s (setField s sn "name" nm')
    else
      pure s
  let cur ← stepE s (getField s sn "name")
  let nm' ← stepE s (jConcatStr cur typeSuffix)
  stepE s (setField s sn "name" nm')

/-- `_process_thermostat_device`. -/
def process_thermostat_device (sn : String) (sd : JVal) (s : NestState) :
    Except (PyError × NestState) NestState := do
  let s ← buildName sn sd " Thermostat" s
  let s ← assignSD s sn "has_fan" sd "has_fan"
  let s ← assignSD s sn "fan" sd "fan_timer_timeout"
  let s ← assignSD s sn "current_humidity" sd "current_humidity"
  let s ← assignSD s sn "target_humidity" sd "target_humidity"
  let s ← assignSD s sn "target_humidity_enabled" sd "target_humidity_enabled"
  let hasB ← stepE s (jHasKeyE sd "backplate_temperature")
  let s ←
    if hasB then do
      let v ← stepE s (jGetE sd "backplate_temperature")
      stepE s (setField s sn "temperature" v)
    else
      pure s
  let hasBat ← stepE s (jHasKeyE sd "battery_level")
  let s ←
    if hasBat then do
      let v ← stepE s (jGetE sd "battery_level")
      stepE s (setField s sn "battery_level" v)
    else
      pure s
  let eco ← stepE s (jGetE sd "eco")
  let m ← stepE s (jGetE eco "mode")
  let isEco := decide (m = JVal.jstr "manual-eco" ∨ m = JVal.jstr "auto-eco")
  let s ← stepE s (setField s sn "eco" (.jbool isEco))
  let hw ← stepE s (jGetDE sd "has_hot_water_control" (.jbool false))
  if jTruthy hw then do
    let s ← stepE s (setField s sn "has_hot_water_control" (.jbool true))
    let v ← stepE s (jGetDE sd "hot_water_active" (.jbool false))
    let s ← stepE s (setField s sn "hot_water_status" v)
    let v ← stepE s (jGetDE sd "hot_water_boiling_state" (.jbool false))
    let s ← stepE s (setField s sn "hot_water_actively_heating" v)
    let v ← stepE s (jGetDE sd "hot_water_away_active" (.jbool false))
    let s ← stepE s (setField s sn "hot_water_away_active" v)
    let v ← stepE s (jGetDE sd "hot_water_mode" (.jstr "off"))
    let s ← stepE s (setField s sn "hot_water_timer_mode" v)
    let v ← stepE s (jGetDE sd "hot_water_away_enabled" (.jbool false))
    let s ← stepE s (setField s sn "hot_water_away_setting" v)
    let v ← stepE s (jGetDE sd "hot_water_boost_time_to_end" (.jnum 0))
    stepE s (setField s sn "hot_water_boost_setting" v)
  else
    stepE s (setField s sn "has_hot_water_control" (.jbool false))

/-- `_map_nest_protect_state`; Python int equality on an arbitrary JSON value
(non-numbers compare unequal and fall to the Unknown branch). -/
def map_nest_protect_state (v : JVal) : String :=
  if v = JVal.jnum 0 then "Ok"
  else if v = JVal.jnum 1 ∨ v = JVal.jnum 2 then "Warning"
  else if v = JVal.jnum 3 then "Emergency"
  else "Unknown"

/-- `_process_protect`.  The big dict literal passed to
`self.device_data[sn].update({...})` is evaluated after the `[sn]` subscript
and applied in one step; its three raw subscripts are the only failure points
inside it. -/
def process_protect (sn : String) (sd : JVal) (s : NestState) :
    Except (PyError × NestState) NestState := do
  let s ← buildName sn sd " Protect" s
  let r ← stepE s (getRecE s sn)
  let co ← stepE s (jGetE sd "co_status")
  let smoke ← stepE s (jGetE sd "smoke_status")
  let bhs ← stepE s (jGetE sd "battery_health_state")
  let bl ← stepE s (jGetDE sd "battery_level" .null)
  let steam ← stepE s (jGetDE sd "steam_detection_enable" .null)
  let nle ← stepE s (jGetDE sd "night_light_enable" .null)
  let nlb ← stepE s (jGetDE sd "night_light_brightness" .null)
  let nlc ← stepE s (jGetDE sd "night_light_continuous" .null)
  let aa ← stepE s (jGetDE sd "auto_away" .null)
  let cs ← stepE s (jGetDE sd "component_smoke_test_passed" .null)
  let cc ← stepE s (jGetDE sd "component_co_test_passed" .null)
  let ch ← stepE s (jGetDE sd "component_hum_test_passed" .null)
  let ct ← stepE s (jGetDE sd "component_temp_test_passed" .null)
  let cp ← stepE s (jGetDE sd "component_pir_test_passed" .null)
  let ca ← stepE s (jGetDE sd "component_speaker_test_passed" .null)
  let cw ← stepE s (jGetDE sd "component_wifi_test_passed" .null)
  let wip ← stepE s (jGetDE sd "wifi_ip_address" .null)
  let tip ← stepE s (jGetDE sd "thread_ip_address" .null)
  let lts ← stepE s (jGetDE sd "latest_manual_test_start_utc_secs" .null)
  let lte ← stepE s (jGetDE sd "latest_manual_test_end_utc_secs" .null)
  let las ← stepE s (jGetDE sd "last_audio_self_test_start_utc_secs" .null)
  let lae ← stepE s (jGetDE sd "last_audio_self_test_end_utc_secs" .null)
  let entries : List (String × JVal) := [
    ("co_status", .jstr (map_nest_protect_state co)),
    ("smoke_status", .jstr (map_nest_protect_state smoke)),
    ("battery_health_state", .jstr (map_nest_protect_state bhs)),
    ("battery_level", bl),
    ("steam_detection_enable", steam),
    ("night_light", .jobj [("enabled", nle), ("brightness", nlb),
      ("continuous", nlc)]),
    ("auto_away", aa),
    ("component_tests", .jobj [("smoke", cs), ("co", cc), ("humidity", ch),
      ("temperature", ct), ("pir", cp), ("audio", ca), ("wifi", cw)]),
    ("network", .jobj [("wifi", .jobj [("ip", wip)]),
      ("thread", .jobj [("ip", tip)])]),
    ("last_test_start", lts),
    ("last_test_end", lte),
    ("last_audio_test_start", las),
    ("last_audio_test_end", lae)]
  .ok { s with device_data := setM s.device_data sn (applyM entries r) }

/-- `_process_temperature_sensor`. -/
def process_temperature_sensor (sn : String) (sd : JVal) (s : NestState) :
    Except (PyError × NestState) NestState := do
  let s ← buildName sn sd " Temperature" s
  let s ← assignSD s sn "temperature" sd "current_temperature"
  assignSD s sn "battery_level" sd "battery_level"

/-- `_get_cameras_updates_pt2`: the GET itself is outside the method's try
block (a transport error propagates); the parse and table write are inside
it, caught only for IndexError and KeyError. -/
def get_cameras_updates_pt2 (camResp : Except PyError RespVal) (sn : String)
    (s : NestState) : Except (PyError × NestState) NestState := do
  let resp ← stepE s camResp
  let inner : Except PyError NestState := do
    let items ← respGetE resp "items"
    let sensor ← jIdxE items 0
    let props ← jGetE sensor "properties"
    let v ← jGetE props "doorbell.indoor_chime.enabled"
    setField s sn "chime_state" v
  match inner with
  | .ok s' => .ok s'
  | .error e =>
    if e = .indexError ∨ e = .keyError then .ok s else .error (e, s)

/-- `_process_camera` (no description handling and no type suffix on the
camera display name, unlike the other decoders). -/
def process_camera (camResp : Except PyError RespVal) (sn : String) (sd : JVal)
    (s : NestState) : Except (PyError × NestState) NestState := do
  let wid ← stepE s (jGetE sd "where_id")
  let nm ← stepE s (lookupWhere s wid)
  let s ← stepE s (setField s sn "name" nm)
  let s ← assignSD s sn "model" sd "model"
  let s ← assignSD s sn "streaming_state" sd "streaming_state"
  let caps ← stepE s (jGetE sd "capabilities")
  let chime ← stepE s (jContainsE caps "indoor_chime")
  if chime then do
    let s ← stepE s (setField s sn "indoor_chime" (.jbool true))
    get_cameras_updates_pt2 camResp sn s
  else
    stepE s (setField s sn "indoor_chime" (.jbool false))

/-! ## update(): the two passes and the top-level handler -/

/-- The inner for-loop of the where pass:
`for where in wheres: self._wheres[where[where_id]] = where[name]`. -/
def merge_wheres_list : List JVal → NestState →
    Except (PyError × NestState) NestState
  | [], s => .ok s
  | w :: t, s => do
    let wid ← stepE s (jGetE w "where_id")
    let nm ← stepE s (jGetE w "name")
    merge_wheres_list t { s with wheres := setM s.wheres wid nm }

/-- One bucket of the where pass (source lines 260-266). -/
def update_where_bucket (bucket : JVal) (s : NestState) :
    Except (PyError × NestState) NestState := do
  let sensor_data ← stepE s (jGetE bucket "value")
  let okeyv ← stepE s (jGetE bucket "object_key")
  let okey ← stepE s (jAsStr okeyv)
  let sn ← stepE s (listIdxE (pySplit okey ".") 1)
  if pyStartswith okey ("where." ++ sn) then do
    let wheresv ← stepE s (jGetE sensor_data "wheres")
    let ws ← stepE s (jAsIter wheresv)
    merge_wheres_list ws s
  else
    pure s

/-- The where-pass loop over `response[updated_buckets]`. -/
def update_where_buckets : List JVal → NestState →
    Except (PyError × NestState) NestState
  | [], s => .ok s
  | b :: t, s => do
    let s ← update_where_bucket b s
    update_where_buckets t s

/-- The full where pass: first app_launch call plus its loop. -/
def update_where_pass (whereResp : Except PyError RespVal) (s : NestState) :
    Except (PyError × NestState) NestState := do
  let resp ← stepE s whereResp
  let ubsv ← stepE s (respGetE resp "updated_buckets")
  let ubs ← stepE s (jAsIter ubsv)
  update_where_buckets ubs s

/-- One bucket of the device pass: prefix dispatch to the five decoders
(source lines 280-294); unknown prefixes are skipped. -/
def update_device_bucket (cam : String → Except PyError RespVal)
    (bucket : JVal) (s : NestState) :
    Except (PyError × NestState) NestState := do
  let sensor_data ← stepE s (jGetE bucket "value")
  let okeyv ← stepE s (jGetE bucket "object_key")
  let okey ← stepE s (jAsStr okeyv)
  let sn ← stepE s (listIdxE (pySplit okey ".") 1)
  if pyStartswith okey ("shared." ++ sn) then
    process_thermostat_shared sn sensor_data s
  else if pyStartswith okey ("device." ++ sn) then
    process_thermostat_device sn sensor_data s
  else if pyStartswith okey ("topaz." ++ sn) then
    process_protect sn sensor_data s
  else if pyStartswith okey ("kryptonite." ++ sn) then
    process_temperature_sensor sn sensor_data s
  else if pyStartswith okey ("quartz." ++ sn) then
    process_camera (cam sn) sn sensor_data s
  else
    pure s

/-- The device-pass loop. -/
def update_device_buckets (cam : String → Except PyError RespVal) :
    List JVal → NestState → Except (PyError × NestState) NestState
  | [], s => .ok s
  | b :: t, s => do
    let s ← update_device_bucket cam b s
    update_device_buckets cam t s

/-- The full device pass: second app_launch call plus its loop. -/
def update_device_pass (deviceResp : Except PyError RespVal)
    (cam : String → Except PyError RespVal) (s : NestState) :
    Except (PyError × NestState) NestState := do
  let resp ← stepE s deviceResp
  let ubsv ← stepE s (respGetE resp "updated_buckets")
  let ubs ← stepE s (jAsIter ubsv)
  update_device_buckets cam ubs s

/-- The body of `update()` inside its try block.  The `previous_states`
snapshot built at the top of the source method is dead (its one consumer
ignores the parameter), so it is not modelled. -/
def update_body (b : Backend) (s : NestState) :
    Except (PyError × NestState) NestState := do
  let s ← update_where_pass b.whereResp s
  update_device_pass b.deviceResp b.cameraResp s

/-- `update()`: the body wrapped in
`except (JSONDecodeError, KeyError, IndexError)` then `except Exception`,
both of which log and return.  Only a BaseException-class cancellation
escapes. -/
def update (b : Backend) (s : NestState) :
    Except (PyError × NestState) NestState :=
  match update_body b s with
  | .ok s' => .ok s'
  | .error (e, s') =>
    if isDataShapeError e then .ok s'
    else if isExceptionClass e then .ok s'
    else .error (e, s')

/-! ## _get_devices (discovery) -/

/-- The `topaz.` discovery branch's static seed record, built with `.get`
defaults from `response.get(objects, {}).get(bucket, {})`.  All lookups are
`.get`-based; the bucket data is already known to be a dict or the default. -/
def protect_seed_rec (bd : JVal) : Except PyError Rec := do
  let model ← jGetDE bd "model" .null
  let color ← jGetDE bd "device_external_color" .null
  let locale ← jGetDE bd "device_locale" .null
  let iloc ← jGetDE bd "installed_locale" .null
  let born ← jGetDE bd "device_born_on_date_utc_secs" .null
  let replby ← jGetDE bd "replace_by_date_utc_secs" .null
  let klsv ← jGetDE bd "kl_software_version" .null
  let wmac ← jGetDE bd "wifi_mac_address" .null
  let wreg ← jGetDE bd "wifi_regulatory_domain" .null
  let tmac ← jGetDE bd "thread_mac_address" .null
  .ok (applyM [
    ("model", model),
    ("device_info", .jobj [("color", color), ("locale", locale),
      ("installed_locale", iloc)]),
    ("born_on_date", born),
    ("replace_by_date", replby),
    ("kl_software_version", klsv),
    ("network", .jobj [
      ("wifi", .jobj [("mac", wmac), ("regulatory_domain", wreg)]),
      ("thread", .jobj [("mac", tmac)])])] emptyRec)

/-- The discovery loop over bucket identifiers (source lines 179-221):
prefix dispatch appending to category lists and seeding table entries. -/
def get_devices_buckets (r : RespVal) : List JVal → NestState →
    Except (PyError × NestState) NestState
  | [], s => .ok s
  | bv :: t, s => do
    let bucket ← stepE s (jAsStr bv)
    let s ←
      if pyStartswith bucket "topaz." then do
        let sn := pyReplace bucket "topaz." ""
        let s := { s with protects := s.protects ++ [sn] }
        let objectsv ← stepE s (respGetDE r "objects" (.jobj []))
        let bucket_data ← stepE s (jGetDE objectsv bucket (.jobj []))
        let seed ← stepE s (protect_seed_rec bucket_data)
        pure { s with device_data := setM s.device_data sn seed }
      else if pyStartswith bucket "kryptonite." then
        let sn := pyReplace bucket "kryptonite." ""
        pure { s with
          temperature_sensors := s.temperature_sensors ++ [sn],
          device_data := setM s.device_data sn emptyRec }
      else if pyStartswith bucket "device." then
        let sn := pyReplace bucket "device." ""
        pure { s with
          thermostats := s.thermostats ++ [sn],
          temperature_sensors := s.temperature_sensors ++ [sn],
          hotwatercontrollers := s.hotwatercontrollers ++ [sn],
          device_data := setM s.device_data sn emptyRec }
      else if pyStartswith bucket "quartz." then
        let sn := pyReplace bucket "quartz." ""
        pure { s with
          cameras := s.cameras ++ [sn],
          switches := s.switches ++ [sn],
          device_data := setM s.device_data sn emptyRec }
      else
        pure s
    get_devices_buckets r t s

/-- `_get_devices`: the bootstrap app_launch call, gateway-URL extraction and
the bucket loop.  The method's own handler catches KeyError and IndexError
only to log and re-raise, so every error propagates unchanged. -/
def get_devices (resp : Except PyError RespVal) (s : NestState) :
    Except (PyError × NestState) NestState := do
  let r ← stepE s resp
  let su ← stepE s (respGetE r "service_urls")
  let urls ← stepE s (jGetE su "urls")
  let czfe ← stepE s (jGetE urls "czfe_url")
  let s := { s with czfe_url := some czfe }
  let ubs ← stepE s (respGetE r "updated_buckets")
  let b0 ← stepE s (jIdxE ubs 0)
  let valv ← stepE s (jGetE b0 "value")
  let bucketsv ← stepE s (jGetE valv "buckets")
  let buckets ← stepE s (jAsIter bucketsv)
  get_devices_buckets r buckets s

/-! ## _do_request (transport executor, attempt-level model)

Used for the retry/backoff/401 claims.  One `AttOutcome` is the result of one
HTTP attempt; `login()` inside the retry loop is modelled as a counter
increment (its own transport traffic is below this model's granularity, and
the 401 scenario under study has it succeed). -/

/-- Outcome of a single HTTP attempt inside `_do_request`. -/
inductive AttOutcome where
  | success (body : JVal)
  | successRaw
  | fail (is401 : Bool)
deriving DecidableEq

/-- Counters observed by the retry loop: attempts made, `login()` invocations,
Authorization-header refreshes. -/
structure ReqTrace where
  attempts : Nat
  logins : Nat
  refreshes : Nat
deriving DecidableEq

/-- `max_retries = 3`. -/
def max_retries : Nat := 3

/-- The `for attempt in range(max_retries)` loop of `_do_request`, counting
down the remaining iterations.  A fail on the final attempt re-raises; a 401
fail on an earlier attempt triggers one login and, when the call passed a
headers kwarg, one Authorization refresh.  Falling out of the loop
(unreachable for 3 iterations) is Python's implicit `return None`, modelled
as a raw result. -/
def do_request_loop (has_headers : Bool) (outs : Nat → AttOutcome) :
    Nat → Nat → ReqTrace → Except ReqTrace ((Option JVal) × ReqTrace)
  | 0, _, t => .ok (none, t)
  | Nat.succ remaining, attempt, t =>
    let t1 : ReqTrace := { t with attempts := t.attempts + 1 }
    match outs attempt with
    | .success body => .ok (some body, t1)
    | .successRaw => .ok (none, t1)
    | .fail is401 =>
      if attempt = max_retries - 1 then
        .error t1
      else
        let t2 : ReqTrace :=
          if is401 then
            { t1 with logins := t1.logins + 1,
                      refreshes := t1.refreshes +
                        (if has_headers then 1 else 0) }
          else t1
        do_request_loop has_headers outs remaining (attempt + 1) t2

/-- `_do_request` proper: `max_retries` loop iterations starting at attempt 0
with fresh counters. -/
def do_request (has_headers : Bool) (outs : Nat → AttOutcome) :
    Except ReqTrace ((Option JVal) × ReqTrace) :=
  do_request_loop has_headers outs max_retries 0 ⟨0, 0, 0⟩

/-! ## Command dispatcher

Each command method checks membership of the device id in its category list,
builds a MERGE payload, issues one `_do_request`, and on `aiohttp.ClientError`
logs, re-runs `login()`, and re-invokes itself with the same arguments.  The
re-invocation re-enters the full method, including its guard and its own
try/except.  `_do_request` is abstracted here to one `CallOutcome` per call;
`login()` to one oracle consultation per invocation (failure propagates,
success installs a fresh token). -/

/-- Outcome of one `_do_request` call made by a command method. -/
inductive CallOutcome where
  | ok
  | errClient
deriving DecidableEq

/-- Oracles for a command run: outcome of the i-th transport call and result
of the j-th `login()` (`some tok` installs `tok`; `none` means login raised). -/
structure CmdEnv where
  outs : Nat → CallOutcome
  logs : Nat → Option String

/-- The typed write intents of section 4.5, one constructor per source
method.  Numeric arguments are carried as integers; no arithmetic is done on
them. -/
inductive Command where
  | thermostat_set_temperature (device_id : String) (target_temp : Int)
      (target_temp_high : Option Int)
  | thermostat_set_mode (device_id : String) (mode : String)
  | thermostat_set_fan (device_id : String) (end_timestamp : Int)
  | thermostat_set_eco_mode (device_id : String) (eco_enable : Bool)
  | hotwater_set_mode (device_id : String) (mode : String)
  | hotwater_set_away_mode (device_id : String) (away_mode : Bool)
  | hotwater_set_boost (device_id : String) (time : Int)
  | camera_turn_off (device_id : String)
  | camera_turn_on (device_id : String)
  | camera_turn_chime_off (device_id : String)
  | camera_turn_chime_on (device_id : String)
deriving DecidableEq

/-- The device id argument of a command. -/
def Command.device_id : Command → String
  | .thermostat_set_temperature i _ _ => i
  | .thermostat_set_mode i _ => i
  | .thermostat_set_fan i _ => i
  | .thermostat_set_eco_mode i _ => i
  | .hotwater_set_mode i _ => i
  | .hotwater_set_away_mode i _ => i
  | .hotwater_set_boost i _ => i
  | .camera_turn_off i => i
  | .camera_turn_on i => i
  | .camera_turn_chime_off i => i
  | .camera_turn_chime_on i => i

/-- The category list the command's guard checks
(`if device_id not in <list>: return`). -/
def guardList (c : Command) (s : NestState) : List String :=
  match c with
  | .thermostat_set_temperature _ _ _ => s.thermostats
  | .thermostat_set_mode _ _ => s.thermostats
  | .thermostat_set_fan _ _ => s.thermostats
  | .thermostat_set_eco_mode _ _ => s.thermostats
  | .hotwater_set_mode _ _ => s.hotwatercontrollers
  | .hotwater_set_away_mode _ _ => s.hotwatercontrollers
  | .hotwater_set_boost _ _ => s.hotwatercontrollers
  | .camera_turn_off _ => s.cameras
  | .camera_turn_on _ => s.cameras
  | .camera_turn_chime_off _ => s.switches
  | .camera_turn_chime_on _ => s.switches

/-- One MERGE object document. -/
def mergeDoc (okey : String) (value : JVal) : JVal :=
  .jobj [("objects", .jarr [.jobj [
    ("object_key", .jstr okey),
    ("op", .jstr "MERGE"),
    ("value", value)]])]

/-- The JSON body each command posts to `<czfe_url>/v5/put`.  Only
`thermostat_set_temperature` in single-target form reads client state (the
device's current mode), and that read can raise KeyError. -/
def build_payload (c : Command) (s : NestState) : Except PyError JVal :=
  match c with
  | .thermostat_set_temperature i t th =>
    match th with
    | some h =>
      .ok (mergeDoc ("shared." ++ i) (.jobj [
        ("target_temperature_low", .jnum t),
        ("target_temperature_high", .jnum h),
        ("target_temperature_type", .jstr "range")]))
    | none => do
      let m ← getField s i "mode"
      .ok (mergeDoc ("shared." ++ i) (.jobj [
        ("target_temperature", .jnum t),
        ("target_temperature_type", m)]))
  | .thermostat_set_mode i m =>
    .ok (mergeDoc ("shared." ++ i)
      (.jobj [("target_temperature_type", .jstr m)]))
  | .thermostat_set_fan i ts =>
    .ok (mergeDoc ("device." ++ i) (.jobj [("fan_timer_timeout", .jnum ts)]))
  | .thermostat_set_eco_mode i e =>
    .ok (mergeDoc ("device." ++ i) (.jobj [("eco", .jobj [("mode",
      .jstr (if e then "manual-eco" else "schedule"))])]))
  | .hotwater_set_mode i m =>
    .ok (mergeDoc ("device." ++ i) (.jobj [("hot_water_mode", .jstr m)]))
  | .hotwater_set_away_mode i a =>
    .ok (mergeDoc ("device." ++ i)
      (.jobj [("hot_water_away_enabled", .jbool a)]))
  | .hotwater_set_boost i t =>
    .ok (mergeDoc ("device." ++ i)
      (.jobj [("hot_water_boost_time_to_end", .jnum t)]))
  | .camera_turn_off i =>
    .ok (mergeDoc ("quartz." ++ i) (.jobj [("streaming.enabled", .jbool false)]))
  | .camera_turn_on i =>
    .ok (mergeDoc ("quartz." ++ i) (.jobj [("streaming.enabled", .jbool true)]))
  | .camera_turn_chime_off i =>
    .ok (mergeDoc ("quartz." ++ i)
      (.jobj [("doorbell.indoor_chime.enabled", .jbool false)]))
  | .camera_turn_chime_on i =>
    .ok (mergeDoc ("quartz." ++ i)
      (.jobj [("doorbell.indoor_chime.enabled", .jbool true)]))

/-- How one command invocation chain ends. -/
inductive CmdRes where
  | done (s : NestState)
  | raisedLogin (s : NestState)
  | raisedPayload (e : PyError) (s : NestState)
  | outOfFuel
 
/-- A finished command run: how it ended, the payloads posted (one per
transport call, in order), and how many `login()` invocations happened. -/
structure CmdRun where
  res : CmdRes
  calls : List JVal
  logins : Nat

/-- A command method.  `fuel` bounds the recursion depth of the model only
(Python's recursion is syntactically unbounded); `i`/`j` index the transport
and login oracles.  Structure per source: guard, build payload, POST; on
ClientError re-login and re-invoke with the same arguments.  An exception
raised inside the except block (login failure, or anything out of the
recursive call) propagates. -/
def runCommand (c : Command) (env : CmdEnv) :
    Nat → Nat → Nat → NestState → CmdRun
  | 0, _, _, _ => ⟨.outOfFuel, [], 0⟩
  | Nat.succ fuel, i, j, s =>
    if c.device_id ∈ guardList c s then
      match build_payload c s with
      | .error e => ⟨.raisedPayload e s, [], 0⟩
      | .ok p =>
        match env.outs i with
        | .ok => ⟨.done s, [p], 0⟩
        | .errClient =>
          match env.logs j with
          | none => ⟨.raisedLogin s, [p], 1⟩
          | some tok =>
            let inner :=
              runCommand c env fuel (i + 1) (j + 1)
                { s with access_token := tok }
            ⟨inner.res, p :: inner.calls, inner.logins + 1⟩
    else
      ⟨.done s, [], 0⟩

/-! ## Shared projections used by the claim statements -/

/-- The state an `update()`-style run ends in, whether it returned or raised
(the error value carries the state at the raise point). -/
def stOf : Except (PyError × NestState) NestState → NestState
  | .ok s => s
  | .error (_, s) => s

/-- Whether the run returned normally. -/
def isOkE : Except (PyError × NestState) NestState → Bool
  | .ok _ => true
  | .error _ => false

/-- `device_data[sn][f]` as a total observation on a state. -/
def fieldOf (s : NestState) (sn f : String) : Option JVal :=
  (s.device_data sn).bind fun r => r f

/-- The state carried by a finished command invocation, when it finished. -/
def resStateOf : CmdRes → Option NestState
  | .done s => some s
  | .raisedLogin s => some s
  | .raisedPayload _ s => some s
  | .outOfFuel => none

/-- Whether a command invocation returned normally. -/
def resIsDone : CmdRes → Bool
  | .done _ => true
  | _ => false

/-- A three-attempt outcome schedule for the transport model. -/
def mk3 (a b c : AttOutcome) : Nat → AttOutcome :=
  fun i => if i = 0 then a else if i = 1 then b else c

/-! ## C7: derivation of the action field by the shared-bucket decoder -/

/-- A shared-bucket body with the required fields and given relay booleans. -/
def sharedSD (ac ht : Bool) : JVal :=
  .jobj [
    ("current_temperature", .jnum 21),
    ("target_temperature", .jnum 19),
    ("hvac_ac_state", .jbool ac),
    ("hvac_heater_state", .jbool ht),
    ("target_temperature_high", .jnum 24),
    ("target_temperature_low", .jnum 16),
    ("can_heat", .jbool true),
    ("can_cool", .jbool true),
    ("target_temperature_type", .jstr "heat")]

/-- A state whose table has exactly one (arbitrary) record under "T1". -/
def oneDevSt (r : Rec) : NestState :=
  { initState "tok" with
      device_data := fun k => if k = "T1" then some r else none }

/-- C7.  For every shared-bucket decode the derived action field is
"cooling" whenever hvac_ac_state is true (also when hvac_heater_state is
true as well), "heating" when only hvac_heater_state is true, and "off"
when both are false; the prior record `r` is arbitrary, so the value is
recomputed from the two booleans on every pass. -/
theorem c7_action_derivation (ac ht : Bool) (r : Rec) :
    isOkE (process_thermostat_shared "T1" (sharedSD ac ht) (oneDevSt r)) =
      true ∧
    fieldOf (stOf (process_thermostat_shared "T1" (sharedSD ac ht)
        (oneDevSt r))) "T1" "action" =
      some (.jstr (if ac then "cooling" else if ht then "heating"
        else "off")) := by
  cases ac <;> cases ht <;> exact ⟨rfl, rfl⟩

/-! ## C2: data-shape errors are caught at the top of update() -/

/-- C2.  When decoding anywhere inside an `update()` pass raises a data-shape
error (missing key, bad index, malformed body), the error is caught at the
outermost level: `update` returns normally, and it returns exactly the state
at the raise point, so every per-bucket mutation already applied in that pass
is retained and nothing is rolled back. -/
theorem c2_update_catches_data_shape (b : Backend) (s : NestState)
    (e : PyError) (s' : NestState)
    (h : update_body b s = .error (e, s'))
    (hclass : isDataShapeError e = true) :
    update b s = .ok s' := by
  unfold update
  rw [h]
  simp [hclass]

/-- Witness scenario for C2: a where-pass response lacking the
`updated_buckets` key raises KeyError with the state untouched, and
`update` returns that state. -/
def c2Backend : Backend :=
  ⟨.ok (.jval (.jobj [])), .ok .raw, fun _ => .ok .raw⟩

theorem c2_witness :
    update c2Backend (initState "t") = .ok (initState "t") :=
  c2_update_catches_data_shape c2Backend (initState "t") .keyError
    (initState "t") rfl rfl

/-! ## C10: update() absorbs every Exception-class error -/

/-- C10.  `update()` lets only a BaseException-class cancellation escape:
whatever state and backend, if `update` propagates an error it is
`cancelledError`, and whenever the body raises an Exception-class error
(transport exhaustion included) `update` returns normally with the state at
the raise point — the caller cannot tell such a cycle from a successful one
by the result. -/
theorem c10_update_absorbs_exceptions :
    (∀ (b : Backend) (s : NestState) (e : PyError) (s' : NestState),
      update b s = .error (e, s') → e = PyError.cancelledError) ∧
    (∀ (b : Backend) (s : NestState) (e : PyError) (s' : NestState),
      update_body b s = .error (e, s') → isExceptionClass e = true →
      update b s = .ok s') := by
  constructor
  · intro b s e s' h
    unfold update at h
    rcases hb : update_body b s with ⟨e'', s''⟩ | t <;> rw [hb] at h
    case ok => simp at h
    · by_cases h1 : isDataShapeError e'' = true
      · simp [h1] at h
      · by_cases h2 : isExceptionClass e'' = true
        · simp [h1, h2] at h
        · simp [h1, h2] at h
          obtain ⟨h3, h4⟩ := h
          subst h3
          cases e'' <;> simp_all [isExceptionClass]
  · intro b s e s' h hclass
    unfold update
    rw [h]
    by_cases hd : isDataShapeError e = true
    · simp [hd]
    · simp [hd, hclass]

/-- Backends for the C10 witness: one whose device pass dies of transport
exhaustion (absorbed), one cancelled mid-call (propagated). -/
def c10BackendClient : Backend :=
  ⟨.ok (.jval (.jobj [("updated_buckets", .jarr [])])),
   .error .clientError, fun _ => .ok .raw⟩

def c10BackendCancelled : Backend :=
  ⟨.error .cancelledError, .ok .raw, fun _ => .ok .raw⟩

theorem c10_witness :
    update c10BackendClient (initState "t") = .ok (initState "t") ∧
    PyError.cancelledError = PyError.cancelledError :=
  ⟨c10_update_absorbs_exceptions.2 c10BackendClient (initState "t")
      .clientError (initState "t") rfl rfl,
   c10_update_absorbs_exceptions.1 c10BackendCancelled (initState "t")
      .cancelledError (initState "t") rfl⟩

/-! ## C5: the command guard is a silent, effect-free no-op -/

/-- C5.  Invoking any command with a device id absent from its relevant
category list performs no transport call, runs no login, leaves the client
state untouched, and returns normally. -/
theorem c5_command_guard (c : Command) (env : CmdEnv) (fuel i j : Nat)
    (s : NestState) (h : c.device_id ∉ guardList c s) :
    runCommand c env (fuel + 1) i j s = ⟨.done s, [], 0⟩ := by
  unfold runCommand
  simp [h]

theorem c5_witness :
    runCommand (.thermostat_set_mode "X" "heat")
      ⟨fun _ => .ok, fun _ => none⟩ 5 0 0 (initState "t") =
      ⟨.done (initState "t"), [], 0⟩ :=
  c5_command_guard (.thermostat_set_mode "X" "heat")
    ⟨fun _ => .ok, fun _ => none⟩ 4 0 0 (initState "t") (by
      simp [Command.device_id, guardList, initState])

/-! ## C1: command retry behaviour -/

/-- The guard list reads only the category lists, so re-login's token update
does not change it. -/
theorem guardList_token (c : Command) (s : NestState) (t : String) :
    guardList c { s with access_token := t } = guardList c s := by
  cases c <;> rfl

/-- The payload reads only the device table, so re-login's token update does
not change it: the retried command posts the same document. -/
theorem build_payload_token (c : Command) (s : NestState) (t : String) :
    build_payload c { s with access_token := t } = build_payload c s := by
  cases c <;> rfl

/-- State fixture: a client that discovered thermostat T1. -/
def cmdStT : NestState := { initState "tok" with thermostats := ["T1"] }

/-- Oracle fixture: the command's transport call fails twice, then succeeds;
every re-login succeeds. -/
def c1Env : CmdEnv :=
  ⟨fun i => if i < 2 then .errClient else .ok, fun _ => some "tok2"⟩

/-- The document `thermostat_set_mode("T1", "heat")` posts. -/
def modePayload : JVal :=
  mergeDoc "shared.T1" (.jobj [("target_temperature_type", .jstr "heat")])

/-- C1 counterexample.  With the transport call failing twice and then
succeeding, `thermostat_set_mode` makes a third transport attempt and
completes normally: the dispatcher neither stops after one retry nor
propagates the second failure, contradicting the claimed two-attempt bound. -/
theorem c1_counterexample :
    runCommand (.thermostat_set_mode "T1" "heat") c1Env 9 0 0 cmdStT =
      ⟨.done { cmdStT with access_token := "tok2" },
        [modePayload, modePayload, modePayload], 2⟩ ∧
    ¬ ([modePayload, modePayload, modePayload].length ≤ 2) :=
  ⟨rfl, by simp⟩

/-- C1 amended.  On a connectivity-class transport failure a command re-runs
login and re-invokes itself with the same arguments, re-entering its own
handler: the pattern repeats for as long as transport calls fail, so after n
consecutive failures followed by a success the command completes normally
having posted the same payload n+1 times with n re-login invocations (for
every n — there is no two-attempt bound); a failure propagates out of the
dispatcher only when a re-login itself raises. -/
theorem c1_retry_unbounded :
    (∀ (n : Nat) (c : Command) (env : CmdEnv) (i j : Nat) (s : NestState)
      (p : JVal),
      c.device_id ∈ guardList c s →
      build_payload c s = .ok p →
      (∀ k, k < n → env.outs (i + k) = .errClient) →
      env.outs (i + n) = .ok →
      (∀ k, (env.logs k).isSome) →
      ∃ s', runCommand c env (n + 1) i j s =
        ⟨.done s', List.replicate (n + 1) p, n⟩) ∧
    (∀ (c : Command) (env : CmdEnv) (fuel i j : Nat) (s : NestState)
      (p : JVal),
      c.device_id ∈ guardList c s →
      build_payload c s = .ok p →
      env.outs i = .errClient →
      env.logs j = none →
      runCommand c env (fuel + 1) i j s = ⟨.raisedLogin s, [p], 1⟩) := by
  constructor
  · intro n
    induction n with
    | zero =>
      intro c env i j s p hmem hp hfails houts hlogs
      refine ⟨s, ?_⟩
      unfold runCommand
      rw [Nat.add_zero] at houts
      simp [hmem, hp, houts, List.replicate]
    | succ n ih =>
      intro c env i j s p hmem hp hfails houts hlogs
      have h0 : env.outs i = .errClient := by
        have := hfails 0 (Nat.succ_pos n)
        simpa using this
      obtain ⟨tok, htok⟩ : ∃ tok, env.logs j = some tok := by
        have := hlogs j
        cases hl : env.logs j
        · rw [hl] at this; simp at this
        · exact ⟨_, rfl⟩
      obtain ⟨s'', hs''⟩ :=
        ih c env (i + 1) (j + 1) { s with access_token := tok } p
          (by rw [guardList_token]; exact hmem)
          (by rw [build_payload_token]; exact hp)
          (by
            intro k hk
            have := hfails (k + 1) (by omega)
            have harith : i + (k + 1) = i + 1 + k := by omega
            rwa [harith] at this)
          (by
            have harith : i + (n + 1) = i + 1 + n := by omega
            rwa [harith] at houts)
          hlogs
      refine ⟨s'', ?_⟩
      show runCommand c env (n + 1 + 1) i j s = _
      unfold runCommand
      simp [hmem, hp, h0, htok, hs'', List.replicate]
  · intro c env fuel i j s p hmem hp houts hlog
    unfold runCommand
    simp [hmem, hp, houts, hlog]

/-- Oracle fixture for the login-failure branch. -/
def c1EnvLoginFail : CmdEnv := ⟨fun _ => .errClient, fun _ => none⟩

theorem c1_witness :
    (∃ s', runCommand (.thermostat_set_mode "T1" "heat") c1Env 3 0 0 cmdStT =
      ⟨.done s', List.replicate 3 modePayload, 2⟩) ∧
    runCommand (.thermostat_set_mode "T1" "heat") c1EnvLoginFail 5 0 0 cmdStT =
      ⟨.raisedLogin cmdStT, [modePayload], 1⟩ :=
  ⟨c1_retry_unbounded.1 2 (.thermostat_set_mode "T1" "heat") c1Env 0 0 cmdStT
      modePayload (by simp [Command.device_id, guardList, cmdStT]) rfl
      (by intro k hk; interval_cases k <;> rfl) rfl (fun _ => rfl),
   c1_retry_unbounded.2 (.thermostat_set_mode "T1" "heat") c1EnvLoginFail 4 0 0
      cmdStT modePayload (by simp [Command.device_id, guardList, cmdStT]) rfl
      rfl rfl⟩

/-! ## C3: transport retry, re-login and header-refresh counting -/

/-- C3 counterexample.  Two 401 failures followed by a success give two
re-login invocations and two header refreshes, not one of each. -/
theorem c3_counterexample :
    do_request true (mk3 (.fail true) (.fail true) (.success (.jobj []))) =
      .ok (some (.jobj []), ⟨3, 2, 2⟩) ∧ (2 : Nat) ≠ 1 :=
  ⟨rfl, by decide⟩

/-- The attempt counter a `_do_request` run ends with. -/
def attemptsOf (x : Except ReqTrace ((Option JVal) × ReqTrace)) : Nat :=
  match x with
  | .ok (_, t) => t.attempts
  | .error t => t.attempts

/-- Helper: each loop iteration makes at most one attempt. -/
theorem do_request_loop_attempts (hh : Bool) (outs : Nat → AttOutcome) :
    ∀ (rem a : Nat) (t : ReqTrace),
      attemptsOf (do_request_loop hh outs rem a t) ≤ t.attempts + rem := by
  intro rem
  induction rem with
  | zero => intro a t; simp [do_request_loop, attemptsOf]
  | succ rem ih =>
    intro a t
    unfold do_request_loop
    rcases houts : outs a with b | _ | is401
    · simp [attemptsOf]
      try omega
    · simp [attemptsOf]
      try omega
    · by_cases ha : a = max_retries - 1
      · simp [ha, attemptsOf]
        try omega
      · simp only [ha, if_false]
        cases is401 <;>
          (refine le_trans (ih _ _) ?_
           simp
           try omega)

/-- C3 amended.  A transport request makes at most 3 attempts; each 401
failure on a non-final attempt triggers one re-login and (when the call
carries a headers kwarg) one Authorization refresh, so the
401/401/success scenario performs exactly two re-logins and two header
refreshes before the successful third attempt; and a request failing on all
three attempts raises with exactly 3 attempts made and no further re-login
after the final failure. -/
theorem c3_retry_behaviour :
    (∀ (body : JVal) (hh : Bool),
      do_request hh (mk3 (.fail true) (.fail true) (.success body)) =
        .ok (some body, ⟨3, 2, if hh then 2 else 0⟩)) ∧
    (∀ (f0 f1 f2 hh : Bool),
      do_request hh (mk3 (.fail f0) (.fail f1) (.fail f2)) =
        .error ⟨3, (if f0 then 1 else 0) + (if f1 then 1 else 0),
          if hh then (if f0 then 1 else 0) + (if f1 then 1 else 0) else 0⟩) ∧
    (∀ (outs : Nat → AttOutcome) (hh : Bool),
      attemptsOf (do_request hh outs) ≤ 3) := by
  refine ⟨?_, ?_, ?_⟩
  · intro body hh
    cases hh <;> rfl
  · intro f0 f1 f2 hh
    cases f0 <;> cases f1 <;> cases hh <;> rfl
  · intro outs hh
    have := do_request_loop_attempts hh outs max_retries 0 ⟨0, 0, 0⟩
    simpa [do_request, max_retries] using this

/-! ## C4: the discovery scenario -/

/-- Bootstrap response with buckets device.T1, kryptonite.T1, quartz.C1 and
gateway URL https://gw.example/x. -/
def c4Resp : JVal :=
  .jobj [
    ("service_urls", .jobj [("urls",
      .jobj [("czfe_url", .jstr "https://gw.example/x")])]),
    ("updated_buckets", .jarr [.jobj [("value", .jobj [("buckets",
      .jarr [.jstr "device.T1", .jstr "kryptonite.T1",
        .jstr "quartz.C1"])])]])]

/-- C4 counterexample.  The device.T1 bucket fans T1 out into the
temperature-sensor list and the kryptonite.T1 bucket appends T1 again, so
the list ends as two copies of T1, not the claimed single entry. -/
theorem c4_counterexample :
    (stOf (get_devices (.ok (.jval c4Resp))
      (initState "tok"))).temperature_sensors = ["T1", "T1"] ∧
    (["T1", "T1"] : List String) ≠ ["T1"] :=
  ⟨rfl, by decide⟩

/-- C4 amended.  For that discovery response, discovery returns normally with
thermostats = [T1], temperature_sensors = [T1, T1] (T1 once from its
thermostat bucket's fan-out and once from its kryptonite bucket),
hot-water controllers = [T1], cameras = [C1], switches = [C1], no protects,
and the gateway URL stored. -/
theorem c4_discovery_outcome :
    isOkE (get_devices (.ok (.jval c4Resp)) (initState "tok")) = true ∧
    (stOf (get_devices (.ok (.jval c4Resp))
      (initState "tok"))).thermostats = ["T1"] ∧
    (stOf (get_devices (.ok (.jval c4Resp))
      (initState "tok"))).temperature_sensors = ["T1", "T1"] ∧
    (stOf (get_devices (.ok (.jval c4Resp))
      (initState "tok"))).hotwatercontrollers = ["T1"] ∧
    (stOf (get_devices (.ok (.jval c4Resp))
      (initState "tok"))).cameras = ["C1"] ∧
    (stOf (get_devices (.ok (.jval c4Resp))
      (initState "tok"))).switches = ["C1"] ∧
    (stOf (get_devices (.ok (.jval c4Resp))
      (initState "tok"))).protects = [] ∧
    (stOf (get_devices (.ok (.jval c4Resp))
      (initState "tok"))).czfe_url = some (.jstr "https://gw.example/x") :=
  ⟨rfl, rfl, rfl, rfl, rfl, rfl, rfl, rfl⟩

/-! ## C9: a failing kryptonite record aborts the rest of the pass -/

/-- Table after a discovery that seeded sensor K1 and thermostat T2. -/
def c9Dd : String → Option Rec :=
  fun k => if k = "K1" then some emptyRec
    else if k = "T2" then some emptyRec else none

def c9St : NestState :=
  { initState "tok" with
      device_data := c9Dd,
      temperature_sensors := ["K1"],
      thermostats := ["T2"] }

/-- Kryptonite record for K1 that is missing the required battery level. -/
def c9KryBucket : JVal :=
  .jobj [
    ("object_key", .jstr "kryptonite.K1"),
    ("value", .jobj [("where_id", .jstr "W1"),
      ("current_temperature", .jnum 20)])]

/-- A complete shared bucket for T2, placed after the failing record. -/
def c9SharedBucket : JVal :=
  .jobj [("object_key", .jstr "shared.T2"), ("value", sharedSD false true)]

def c9Backend : Backend :=
  ⟨.ok (.jval (.jobj [("updated_buckets", .jarr [.jobj [
      ("object_key", .jstr "where.W1"),
      ("value", .jobj [("wheres", .jarr [.jobj [
        ("where_id", .jstr "W1"), ("name", .jstr "Kitchen")]])])]])])),
   .ok (.jval (.jobj [("updated_buckets",
      .jarr [c9KryBucket, c9SharedBucket])])),
   fun _ => .ok .raw⟩

/-- C9 counterexample.  The kryptonite record missing its battery level
raises KeyError, which is caught only at the top of update(): the shared.T2
bucket after it in the same response is never decoded, so no field of T2 is
merged — the pass is aborted, contrary to the claim. -/
theorem c9_counterexample :
    isOkE (update c9Backend c9St) = true ∧
    fieldOf (stOf (update c9Backend c9St)) "T2" "current_temperature" =
      none ∧
    fieldOf (stOf (update c9Backend c9St)) "T2" "action" = none :=
  ⟨rfl, rfl, rfl⟩

/-- C9 amended.  The decode failure of the kryptonite record is caught only
at the outermost level of update(): update returns normally and retains every
mutation applied before the raise (including that record's own earlier
fields, here the display name and temperature), but the buckets after it in
the same response are not decoded. -/
theorem c9_abort_semantics :
    isOkE (update c9Backend c9St) = true ∧
    fieldOf (stOf (update c9Backend c9St)) "K1" "name" =
      some (.jstr "Kitchen Temperature") ∧
    fieldOf (stOf (update c9Backend c9St)) "K1" "temperature" =
      some (.jnum 20) ∧
    fieldOf (stOf (update c9Backend c9St)) "K1" "battery_level" = none ∧
    fieldOf (stOf (update c9Backend c9St)) "T2" "current_temperature" =
      none :=
  ⟨rfl, rfl, rfl, rfl, rfl⟩

/-! ## Characterisation machinery for update()

Each decoder writes a sequence of (field, value) pairs into one record, and
its failure point depends only on the bucket body, on the location map and on
whether the serial has a table entry — never on prior record values.  The
lemmas below capture every decoder as a pure write plan applied with
last-write-wins semantics, which is what the idempotence of `update()`
reduces to. -/

/-- Apply a list of (serial, field, value) writes to the device table;
writes to an absent serial do nothing (the plans only emit writes for
serials with entries). -/
def applyDD (L : List (String × String × JVal))
    (dd : String → Option Rec) : String → Option Rec :=
  L.foldl
    (fun dd w => fun k =>
      if k = w.1 then (dd w.1).map (fun r => setM r w.2.1 w.2.2) else dd k)
    dd

/-- The writes of a table-write list that target one serial, in order. -/
def projDD (L : List (String × String × JVal)) (sn : String) :
    List (String × JVal) :=
  L.filterMap fun w => if w.1 = sn then some w.2 else none

theorem applyDD_nil (dd : String → Option Rec) : applyDD [] dd = dd := rfl

theorem applyDD_cons (w : String × String × JVal)
    (L : List (String × String × JVal)) (dd : String → Option Rec) :
    applyDD (w :: L) dd =
      applyDD L (fun k =>
        if k = w.1 then (dd w.1).map (fun r => setM r w.2.1 w.2.2)
        else dd k) := rfl

theorem applyDD_append (L M : List (String × String × JVal))
    (dd : String → Option Rec) :
    applyDD (L ++ M) dd = applyDD M (applyDD L dd) := by
  simp [applyDD, List.foldl_append]

theorem applyDD_lookup (L : List (String × String × JVal))
    (dd : String → Option Rec) (k : String) :
    applyDD L dd k = (dd k).map fun r => applyM (projDD L k) r := by
  induction L generalizing dd with
  | nil => simp [applyDD, projDD, applyM]
  | cons w t ih =>
    obtain ⟨wsn, wf, wv⟩ := w
    rw [applyDD_cons, ih]
    by_cases hk : k = wsn
    · subst hk
      rcases hdk : dd k with _ | r <;>
        simp [hdk, projDD, List.filterMap_cons, applyM_cons]
    · have h1 : ((wsn : String) = k) = False := by
        simp
        exact fun hh => hk hh.symm
      simp [hk, projDD, List.filterMap_cons, h1]

theorem applyDD_isSome (L : List (String × String × JVal))
    (dd : String → Option Rec) (k : String) :
    (applyDD L dd k).isSome = (dd k).isSome := by
  rw [applyDD_lookup]
  rcases dd k with _ | r <;> simp

theorem applyDD_idem (L : List (String × String × JVal))
    (dd : String → Option Rec) :
    applyDD L (applyDD L dd) = applyDD L dd := by
  funext k
  rw [applyDD_lookup, applyDD_lookup]
  rcases dd k with _ | r <;> simp [applyM_idem]

/-- Writes tagged for one serial apply as record writes on that entry. -/
theorem applyDD_tag (sn : String) (L : List (String × JVal))
    (dd : String → Option Rec) (r : Rec) (hdd : dd sn = some r) :
    applyDD (L.map fun fv => (sn, fv.1, fv.2)) dd =
      setM dd sn (applyM L r) := by
  have hproj : ∀ kk, projDD (L.map fun fv => (sn, fv.1, fv.2)) kk =
      if kk = sn then L else [] := by
    intro kk
    induction L with
    | nil => simp [projDD]
    | cons fv t ih =>
      simp only [projDD, List.map_cons, List.filterMap_cons] at ih ⊢
      by_cases hk : kk = sn
      · subst hk
        simp only [if_pos rfl] at ih ⊢
        simp [ih]
      · have h1 : ((sn : String) = kk) = False := by
          simp
          exact fun hh => hk hh.symm
        simp only [if_neg hk] at ih ⊢
        simp [h1, ih]
  funext k
  rw [applyDD_lookup, hproj]
  by_cases hk : k = sn
  · subst hk
    simp [hdd, setM]
  · simp only [if_neg hk, setM, hk, if_false]
    cases dd k <;> simp [applyM]

/-! ### Intermediate states and plan combinators -/

/-- The state reached after applying record writes `L` to `sn`'s entry `r`. -/
def mkMid (s : NestState) (sn : String) (r : Rec)
    (L : List (String × JVal)) : NestState :=
  { s with device_data := setM s.device_data sn (applyM L r) }

/-- The state reached after applying location-map writes `L`. -/
def mkMidW (s : NestState) (L : List (JVal × JVal)) : NestState :=
  { s with wheres := applyM L s.wheres }

/-- The state reached after applying table writes `L`. -/
def mkMidD (s : NestState) (L : List (String × String × JVal)) : NestState :=
  { s with device_data := applyDD L s.device_data }

/-- Sequencing a fallible read inside a write plan. -/
def pstep {α W : Type} (x : Except PyError α)
    (k : α → List W × Option PyError) : List W × Option PyError :=
  match x with
  | .error e => ([], some e)
  | .ok a => k a

/-- Recording one write inside a plan. -/
def pwrite {W : Type} (w : W) (rest : List W × Option PyError) :
    List W × Option PyError :=
  (w :: rest.1, rest.2)

/-- The empty remainder of a plan. -/
def pdone {W : Type} : List W × Option PyError := ([], none)

/-- Concatenate two plans, the second running only when the first finished. -/
def planSeq {W : Type} (p q : List W × Option PyError) :
    List W × Option PyError :=
  match p.2 with
  | some _ => p
  | none => (p.1 ++ q.1, q.2)

/-- The error a decoder raises when its serial has no table entry: its first
read's failure when that read fails, else the KeyError of the first write. -/
def firstErr (x : Except PyError JVal) : PyError :=
  match x with
  | .error e => e
  | .ok _ => .keyError

/-- `self._wheres[key]` as a pure function of the location map. -/
def lookupWhereP (w : JVal → Option JVal) (key : JVal) :
    Except PyError JVal :=
  match w key with
  | some v => .ok v
  | none => .error .keyError

/-- Interpreting a record-write plan from a mid-state: the remaining writes
are appended and the plan's error, if any, is raised at the final state. -/
def planCont (sn : String) (s : NestState) (r : Rec)
    (L : List (String × JVal)) (p : List (String × JVal) × Option PyError) :
    Except (PyError × NestState) NestState :=
  match p.2 with
  | none => .ok (mkMid s sn r (L ++ p.1))
  | some e => .error (e, mkMid s sn r (L ++ p.1))

theorem planCont_seq (sn : String) (s : NestState) (r : Rec)
    (L : List (String × JVal))
    (p q : List (String × JVal) × Option PyError) :
    planCont sn s r L (planSeq p q) =
      match p.2 with
      | some e => .error (e, mkMid s sn r (L ++ p.1))
      | none => planCont sn s r (L ++ p.1) q := by
  rcases p with ⟨pl, pe⟩
  rcases pe with _ | e <;> simp [planSeq, planCont, List.append_assoc]

/-! ### Per-statement lemmas over mid-states -/

section MidLemmas

variable {s : NestState} {sn : String} {r : Rec}

theorem mkMid_dd (L : List (String × JVal)) :
    (mkMid s sn r L).device_data sn = some (applyM L r) := by
  simp [mkMid, setM]

theorem mkMid_nil (hdd : s.device_data sn = some r) : mkMid s sn r [] = s := by
  simp [mkMid, applyM_nil, setM_self hdd]

theorem mkMid_wheres (L : List (String × JVal)) :
    (mkMid s sn r L).wheres = s.wheres := rfl

theorem setField_mid (L : List (String × JVal)) (f : String) (v : JVal) :
    setField (mkMid s sn r L) sn f v = .ok (mkMid s sn r (L ++ [(f, v)])) := by
  simp only [setField, mkMid_dd]
  have : applyM (L ++ [(f, v)]) r = setM (applyM L r) f v := by
    rw [applyM_append, applyM_cons, applyM_nil]
  simp [mkMid, this, setM_setM_same]

theorem getField_mid (L : List (String × JVal)) (f : String) :
    getField (mkMid s sn r L) sn f =
      match applyM L r f with
      | some v => .ok v
      | none => .error .keyError := by
  simp only [getField, mkMid_dd]

theorem getRecE_mid (L : List (String × JVal)) :
    getRecE (mkMid s sn r L) sn = .ok (applyM L r) := by
  simp only [getRecE, mkMid_dd]

theorem assignSD_mid (L : List (String × JVal)) (f : String) (sd : JVal)
    (key : String) :
    assignSD (mkMid s sn r L) sn f sd key =
      planCont sn s r L
        (pstep (jGetE sd key) fun v => pwrite (f, v) pdone) := by
  rcases h : jGetE sd key with e | v
  · simp [assignSD, stepE, h, planCont, pstep, bind, Except.bind]
  · simp only [assignSD, stepE, h, bind, Except.bind, setField_mid]
    simp [planCont, pstep, pwrite, pdone]

theorem lookupWhere_mid (L : List (String × JVal)) (key : JVal) :
    lookupWhere (mkMid s sn r L) key = lookupWhereP s.wheres key := rfl

end MidLemmas

/-! ### More plan-interpretation lemmas -/

theorem lastM_append {κ ν : Type} [DecidableEq κ] (L M : List (κ × ν))
    (k : κ) :
    lastM (L ++ M) k =
      match lastM M k with
      | some v => some v
      | none => lastM L k := by
  induction L with
  | nil => simp [lastM]; cases lastM M k <;> rfl
  | cons p t ih =>
    obtain ⟨k', v⟩ := p
    rw [List.cons_append, lastM, ih]
    rcases h : lastM M k with _ | u <;> rcases h2 : lastM t k with _ | w <;>
      simp [lastM, h, h2]

section PlanContLemmas

variable {s : NestState} {sn : String} {r : Rec} {L : List (String × JVal)}

theorem planCont_pwrite (w : String × JVal)
    (rest : List (String × JVal) × Option PyError) :
    planCont sn s r L (pwrite w rest) = planCont sn s r (L ++ [w]) rest := by
  rcases rest with ⟨wl, we⟩
  rcases we with _ | e <;> simp [planCont, pwrite, List.append_assoc]

theorem planCont_pstep_err {α : Type} (e : PyError)
    (k : α → List (String × JVal) × Option PyError) :
    planCont sn s r L (pstep (Except.error e) k) =
      .error (e, mkMid s sn r L) := by
  simp [planCont, pstep]

theorem planCont_pstep_ok {α : Type} (a : α)
    (k : α → List (String × JVal) × Option PyError) :
    planCont sn s r L (pstep (Except.ok a) k) = planCont sn s r L (k a) := by
  simp [pstep]

theorem planCont_pdone : planCont sn s r L pdone = .ok (mkMid s sn r L) := by
  simp [planCont, pdone]

theorem planCont_mk_none (Lw : List (String × JVal)) :
    planCont sn s r L (Lw, none) = .ok (mkMid s sn r (L ++ Lw)) := rfl

theorem planCont_mk_some (Lw : List (String × JVal)) (e : PyError) :
    planCont sn s r L (Lw, some e) = .error (e, mkMid s sn r (L ++ Lw)) := rfl

theorem assignSD_mid_err {sd : JVal} {key : String} {e : PyError}
    (h : jGetE sd key = .error e) (f : String) :
    assignSD (mkMid s sn r L) sn f sd key = .error (e, mkMid s sn r L) := by
  simp [assignSD, stepE, h, bind, Except.bind]

theorem assignSD_mid_ok {sd : JVal} {key : String} {v : JVal}
    (h : jGetE sd key = .ok v) (f : String) :
    assignSD (mkMid s sn r L) sn f sd key =
      .ok (mkMid s sn r (L ++ [(f, v)])) := by
  simp [assignSD, stepE, h, bind, Except.bind, setField_mid]

theorem pstep_okv {α : Type} (a : α)
    (k : α → List (String × JVal) × Option PyError) :
    pstep (Except.ok a) k = k a := rfl

theorem pstep_errv {α : Type} (e : PyError)
    (k : α → List (String × JVal) × Option PyError) :
    pstep (Except.error e) k = ([], some e) := rfl

theorem pwrite_pair (w : String × JVal) (Lw : List (String × JVal))
    (oe : Option PyError) : pwrite w (Lw, oe) = (w :: Lw, oe) := rfl

theorem planCont_seq_write1 (w : String × JVal)
    (q : List (String × JVal) × Option PyError) :
    planCont sn s r L (planSeq ([w], none) q) =
      planCont sn s r (L ++ [w]) q := by
  rcases q with ⟨qL, qe⟩
  rcases qe with _ | e <;> simp [planSeq, planCont, List.append_assoc]

theorem planCont_seq_err1 (Lw : List (String × JVal)) (e : PyError)
    (q : List (String × JVal) × Option PyError) :
    planCont sn s r L (planSeq (Lw, some e) q) =
      .error (e, mkMid s sn r (L ++ Lw)) := by
  simp [planSeq, planCont]

end PlanContLemmas

/-! ### The shared-bucket decoder as a plan -/

/-- The write plan of `_process_thermostat_shared`: nine copies in statement
order, then the derived action (computed from the just-written relay
booleans, hence directly from the bucket body). -/
def sharedPlan (sd : JVal) : List (String × JVal) × Option PyError :=
  pstep (jGetE sd "current_temperature") fun v1 =>
  pwrite ("current_temperature", v1) (
  pstep (jGetE sd "target_temperature") fun v2 =>
  pwrite ("target_temperature", v2) (
  pstep (jGetE sd "hvac_ac_state") fun ac =>
  pwrite ("hvac_ac_state", ac) (
  pstep (jGetE sd "hvac_heater_state") fun ht =>
  pwrite ("hvac_heater_state", ht) (
  pstep (jGetE sd "target_temperature_high") fun v5 =>
  pwrite ("target_temperature_high", v5) (
  pstep (jGetE sd "target_temperature_low") fun v6 =>
  pwrite ("target_temperature_low", v6) (
  pstep (jGetE sd "can_heat") fun v7 =>
  pwrite ("can_heat", v7) (
  pstep (jGetE sd "can_cool") fun v8 =>
  pwrite ("can_cool", v8) (
  pstep (jGetE sd "target_temperature_type") fun v9 =>
  pwrite ("mode", v9) (
  pwrite ("action", .jstr (if jTruthy ac then "cooling"
    else if jTruthy ht then "heating" else "off")) pdone)))))))))

/-- Characterisation of the shared-bucket decoder from a mid-state. -/
theorem shared_from_mid (sn : String) (sd : JVal) (s : NestState) (r : Rec)
    (L : List (String × JVal)) :
    process_thermostat_shared sn sd (mkMid s sn r L) =
      planCont sn s r L (sharedPlan sd) := by
  unfold process_thermostat_shared sharedPlan
  rcases h1 : jGetE sd "current_temperature" with e | v1
  · rw [planCont_pstep_err]
    simp [assignSD_mid_err h1, bind, Except.bind]
  rw [planCont_pstep_ok, planCont_pwrite]
  rcases h2 : jGetE sd "target_temperature" with e | v2
  · rw [planCont_pstep_err]
    simp [assignSD_mid_ok h1, assignSD_mid_err h2, bind, Except.bind]
  rw [planCont_pstep_ok, planCont_pwrite]
  rcases h3 : jGetE sd "hvac_ac_state" with e | ac
  · rw [planCont_pstep_err]
    simp [assignSD_mid_ok h1, assignSD_mid_ok h2, assignSD_mid_err h3,
      bind, Except.bind, List.append_assoc]
  rw [planCont_pstep_ok, planCont_pwrite]
  rcases h4 : jGetE sd "hvac_heater_state" with e | ht
  · rw [planCont_pstep_err]
    simp [assignSD_mid_ok h1, assignSD_mid_ok h2, assignSD_mid_ok h3,
      assignSD_mid_err h4, bind, Except.bind, List.append_assoc]
  rw [planCont_pstep_ok, planCont_pwrite]
  rcases h5 : jGetE sd "target_temperature_high" with e | v5
  · rw [planCont_pstep_err]
    simp [assignSD_mid_ok h1, assignSD_mid_ok h2, assignSD_mid_ok h3,
      assignSD_mid_ok h4, assignSD_mid_err h5, bind, Except.bind,
      List.append_assoc]
  rw [planCont_pstep_ok, planCont_pwrite]
  rcases h6 : jGetE sd "target_temperature_low" with e | v6
  · rw [planCont_pstep_err]
    simp [assignSD_mid_ok h1, assignSD_mid_ok h2, assignSD_mid_ok h3,
      assignSD_mid_ok h4, assignSD_mid_ok h5, assignSD_mid_err h6,
      bind, Except.bind, List.append_assoc]
  rw [planCont_pstep_ok, planCont_pwrite]
  rcases h7 : jGetE sd "can_heat" with e | v7
  · rw [planCont_pstep_err]
    simp [assignSD_mid_ok h1, assignSD_mid_ok h2, assignSD_mid_ok h3,
      assignSD_mid_ok h4, assignSD_mid_ok h5, assignSD_mid_ok h6,
      assignSD_mid_err h7, bind, Except.bind, List.append_assoc]
  rw [planCont_pstep_ok, planCont_pwrite]
  rcases h8 : jGetE sd "can_cool" with e | v8
  · rw [planCont_pstep_err]
    simp [assignSD_mid_ok h1, assignSD_mid_ok h2, assignSD_mid_ok h3,
      assignSD_mid_ok h4, assignSD_mid_ok h5, assignSD_mid_ok h6,
      assignSD_mid_ok h7, assignSD_mid_err h8, bind, Except.bind,
      List.append_assoc]
  rw [planCont_pstep_ok, planCont_pwrite]
  rcases h9 : jGetE sd "target_temperature_type" with e | v9
  · rw [planCont_pstep_err]
    simp [assignSD_mid_ok h1, assignSD_mid_ok h2, assignSD_mid_ok h3,
      assignSD_mid_ok h4, assignSD_mid_ok h5, assignSD_mid_ok h6,
      assignSD_mid_ok h7, assignSD_mid_ok h8, assignSD_mid_err h9,
      bind, Except.bind, List.append_assoc]
  rw [planCont_pstep_ok, planCont_pwrite, planCont_pwrite, planCont_pdone]
  simp only [assignSD_mid_ok h1, assignSD_mid_ok h2, assignSD_mid_ok h3,
    assignSD_mid_ok h4, assignSD_mid_ok h5, assignSD_mid_ok h6,
    assignSD_mid_ok h7, assignSD_mid_ok h8, assignSD_mid_ok h9,
    bind, Except.bind]
  rw [getField_mid]
  have hac : applyM (L ++ [("current_temperature", v1)] ++
      [("target_temperature", v2)] ++ [("hvac_ac_state", ac)] ++
      [("hvac_heater_state", ht)] ++ [("target_temperature_high", v5)] ++
      [("target_temperature_low", v6)] ++ [("can_heat", v7)] ++
      [("can_cool", v8)] ++ [("mode", v9)]) r "hvac_ac_state" = some ac := by
    rw [applyM_lookup]
    simp [lastM_append, lastM]
  rw [hac]
  simp only [stepE]
  rcases htr : jTruthy ac with _ | _
  · have hht : applyM (L ++ [("current_temperature", v1)] ++
        [("target_temperature", v2)] ++ [("hvac_ac_state", ac)] ++
        [("hvac_heater_state", ht)] ++ [("target_temperature_high", v5)] ++
        [("target_temperature_low", v6)] ++ [("can_heat", v7)] ++
        [("can_cool", v8)] ++ [("mode", v9)]) r "hvac_heater_state" =
        some ht := by
      rw [applyM_lookup]
      simp [lastM_append, lastM]
    simp only [Bool.false_eq_true, if_false, getField_mid, hht, stepE,
      bind, Except.bind, setField_mid, htr]
    rcases htr2 : jTruthy ht with _ | _ <;>
      simp [htr2, List.append_assoc]
  · simp only [htr, if_true, setField_mid, stepE]
    try simp [List.append_assoc]

/-! ### The display-name builder as a plan -/

/-- Write plan of `buildName` (location lookup, optional description
parenthetical, type suffix), over a fixed location map. -/
def buildNamePlan (sd : JVal) (w : JVal → Option JVal) (typeSuffix : String) :
    List (String × JVal) × Option PyError :=
  pstep (jGetE sd "where_id") fun wid =>
  pstep (lookupWhereP w wid) fun nm =>
  pwrite ("name", nm) (
  pstep (jGetDE sd "description" .null) fun desc =>
  if jTruthy desc then
    pstep (jConcatStr nm (" (" ++ pyStr desc ++ ")")) fun nm' =>
    pwrite ("name", nm') (
    pstep (jConcatStr nm' typeSuffix) fun nm'' =>
    pwrite ("name", nm'') pdone)
  else
    pstep (jConcatStr nm typeSuffix) fun nm'' =>
    pwrite ("name", nm'') pdone)

theorem buildName_from_mid (sn : String) (sd : JVal) (suffix : String)
    (s : NestState) (r : Rec) (L : List (String × JVal)) :
    buildName sn sd suffix (mkMid s sn r L) =
      planCont sn s r L (buildNamePlan sd s.wheres suffix) := by
  unfold buildName buildNamePlan
  rcases hw : jGetE sd "where_id" with e | wid
  · simp [stepE, planCont_pstep_err, bind, Except.bind]
  rcases hl : lookupWhereP s.wheres wid with e | nm
  · simp [stepE, hl, lookupWhere_mid, planCont_pstep_ok, planCont_pstep_err,
      bind, Except.bind]
  rcases hd : jGetDE sd "description" JVal.null with e | desc
  · simp [stepE, hl, hd, lookupWhere_mid, planCont_pstep_ok,
      planCont_pstep_err, planCont_pwrite, setField_mid, bind, Except.bind]
  have hn : applyM (L ++ [("name", nm)]) r "name" = some nm := by
    rw [applyM_lookup]
    simp [lastM_append, lastM]
  rcases htd : jTruthy desc with _ | _
  · rcases hc : jConcatStr nm suffix with e | nm2 <;>
      simp [stepE, hl, hd, htd, hn, hc, lookupWhere_mid, planCont_pstep_ok,
        planCont_pstep_err, planCont_pwrite, planCont_pdone, setField_mid,
        getField_mid, bind, Except.bind, pure, Except.pure,
        List.append_assoc]
  · rcases hc1 : jConcatStr nm (" (" ++ pyStr desc ++ ")") with e | nm1
    · simp [stepE, hl, hd, htd, hn, hc1, lookupWhere_mid, planCont_pstep_ok,
        planCont_pstep_err, planCont_pwrite, setField_mid, getField_mid,
        bind, Except.bind]
    · have hn2 : applyM (L ++ [("name", nm), ("name", nm1)]) r "name" =
          some nm1 := by
        rw [applyM_lookup]
        simp [lastM_append, lastM]
      rcases hc2 : jConcatStr nm1 suffix with e | nm2 <;>
        simp [stepE, hl, hd, htd, hn, hn2, hc1, hc2, lookupWhere_mid,
          planCont_pstep_ok, planCont_pstep_err, planCont_pwrite,
          planCont_pdone, setField_mid, getField_mid, bind, Except.bind,
          List.append_assoc]

/-! ### The device-bucket decoder as a plan -/

/-- Write plan of the hot-water tail of `_process_thermostat_device`,
guarded by `.get("has_hot_water_control", False)`. -/
def deviceHotWaterPlan (sd : JVal) :
    List (String × JVal) × Option PyError :=
  pstep (jGetDE sd "has_hot_water_control" (.jbool false)) fun hw2 =>
  if jTruthy hw2 then
    pwrite ("has_hot_water_control", .jbool true) (
    pstep (jGetDE sd "hot_water_active" (.jbool false)) fun x1 =>
    pwrite ("hot_water_status", x1) (
    pstep (jGetDE sd "hot_water_boiling_state" (.jbool false)) fun x2 =>
    pwrite ("hot_water_actively_heating", x2) (
    pstep (jGetDE sd "hot_water_away_active" (.jbool false)) fun x3 =>
    pwrite ("hot_water_away_active", x3) (
    pstep (jGetDE sd "hot_water_mode" (.jstr "off")) fun x4 =>
    pwrite ("hot_water_timer_mode", x4) (
    pstep (jGetDE sd "hot_water_away_enabled" (.jbool false)) fun x5 =>
    pwrite ("hot_water_away_setting", x5) (
    pstep (jGetDE sd "hot_water_boost_time_to_end" (.jnum 0)) fun x6 =>
    pwrite ("hot_water_boost_setting", x6) pdone))))))
  else
    pwrite ("has_hot_water_control", .jbool false) pdone

/-- Write plan of `_process_thermostat_device`: display name, fan and
humidity copies, optional backplate/battery copies, derived eco flag, and
the hot-water block guarded by `has_hot_water_control`. -/
def devicePlanF (sd : JVal) (w : JVal → Option JVal) :
    List (String × JVal) × Option PyError :=
  planSeq (buildNamePlan sd w " Thermostat") (
  pstep (jGetE sd "has_fan") fun a =>
  pwrite ("has_fan", a) (
  pstep (jGetE sd "fan_timer_timeout") fun b =>
  pwrite ("fan", b) (
  pstep (jGetE sd "current_humidity") fun c =>
  pwrite ("current_humidity", c) (
  pstep (jGetE sd "target_humidity") fun d =>
  pwrite ("target_humidity", d) (
  pstep (jGetE sd "target_humidity_enabled") fun e2 =>
  pwrite ("target_humidity_enabled", e2) (
  pstep (jHasKeyE sd "backplate_temperature") fun hasB =>
  planSeq (if hasB then
      pstep (jGetE sd "backplate_temperature") fun v =>
      pwrite ("temperature", v) pdone
    else pdone) (
  pstep (jHasKeyE sd "battery_level") fun hasBat =>
  planSeq (if hasBat then
      pstep (jGetE sd "battery_level") fun v =>
      pwrite ("battery_level", v) pdone
    else pdone) (
  pstep (jGetE sd "eco") fun eco =>
  pstep (jGetE eco "mode") fun m =>
  pwrite ("eco", .jbool (decide (m = JVal.jstr "manual-eco" ∨
    m = JVal.jstr "auto-eco"))) (
  deviceHotWaterPlan sd)))))))))

theorem device_from_mid (sn : String) (sd : JVal) (s : NestState) (r : Rec)
    (L : List (String × JVal)) :
    process_thermostat_device sn sd (mkMid s sn r L) =
      planCont sn s r L (devicePlanF sd s.wheres) := by
  unfold process_thermostat_device devicePlanF deviceHotWaterPlan
  rw [buildName_from_mid]
  rcases hbn : buildNamePlan sd s.wheres " Thermostat" with ⟨BL, BE⟩
  rcases BE with _ | e
  case some =>
    simp only [planCont_seq]
    simp [planCont_mk_some, bind, Except.bind]
  simp only [planCont_seq]
  simp only [planCont_mk_none, bind, Except.bind]
  rcases h1 : jGetE sd "has_fan" with e | a
  · simp [*, stepE, bind, Except.bind, planCont_pstep_err,
            planCont_pstep_ok, planCont_pwrite, planCont_pdone,
            planCont_mk_none, planCont_mk_some, setField_mid,
            assignSD_mid_err, assignSD_mid_ok, pdone, pstep_okv,
            pstep_errv, pwrite_pair, planCont_seq_write1,
            planCont_seq_err1, List.append_assoc]
  rcases h2 : jGetE sd "fan_timer_timeout" with e | b
  · simp [*, stepE, bind, Except.bind, planCont_pstep_err,
            planCont_pstep_ok, planCont_pwrite, planCont_pdone,
            planCont_mk_none, planCont_mk_some, setField_mid,
            assignSD_mid_err, assignSD_mid_ok, pdone, pstep_okv,
            pstep_errv, pwrite_pair, planCont_seq_write1,
            planCont_seq_err1, List.append_assoc]
  rcases h3 : jGetE sd "current_humidity" with e | c
  · simp [*, stepE, bind, Except.bind, planCont_pstep_err,
            planCont_pstep_ok, planCont_pwrite, planCont_pdone,
            planCont_mk_none, planCont_mk_some, setField_mid,
            assignSD_mid_err, assignSD_mid_ok, pdone, pstep_okv,
            pstep_errv, pwrite_pair, planCont_seq_write1,
            planCont_seq_err1, List.append_assoc]
  rcases h4 : jGetE sd "target_humidity" with e | d
  · simp [*, stepE, bind, Except.bind, planCont_pstep_err,
            planCont_pstep_ok, planCont_pwrite, planCont_pdone,
            planCont_mk_none, planCont_mk_some, setField_mid,
            assignSD_mid_err, assignSD_mid_ok, pdone, pstep_okv,
            pstep_errv, pwrite_pair, planCont_seq_write1,
            planCont_seq_err1, List.append_assoc]
  rcases h5 : jGetE sd "target_humidity_enabled" with e | e5
  · simp [*, stepE, bind, Except.bind, planCont_pstep_err,
            planCont_pstep_ok, planCont_pwrite, planCont_pdone,
            planCont_mk_none, planCont_mk_some, setField_mid,
            assignSD_mid_err, assignSD_mid_ok, pdone, pstep_okv,
            pstep_errv, pwrite_pair, planCont_seq_write1,
            planCont_seq_err1, List.append_assoc]
  simp only [assignSD_mid_ok h1, assignSD_mid_ok h2, assignSD_mid_ok h3,
    assignSD_mid_ok h4, assignSD_mid_ok h5, bind, Except.bind,
    planCont_pstep_ok, planCont_pwrite]
  rcases hhb : jHasKeyE sd "backplate_temperature" with e | hasB
  · simp [*, stepE, bind, Except.bind, planCont_pstep_err,
            planCont_pstep_ok, planCont_pwrite, planCont_pdone,
            planCont_mk_none, planCont_mk_some, setField_mid,
            assignSD_mid_err, assignSD_mid_ok, pdone, pstep_okv,
            pstep_errv, pwrite_pair, planCont_seq_write1,
            planCont_seq_err1, List.append_assoc]
  simp only [stepE, bind, Except.bind, planCont_pstep_ok]
  rcases hasB with _ | _
  ·
    simp only [Bool.false_eq_true, if_false, planCont_seq, pdone, pure,
      Except.pure, bind, Except.bind, List.append_nil]
    rcases hbat : jHasKeyE sd "battery_level" with e | hasBat
    · simp [*, stepE, bind, Except.bind, planCont_pstep_err,
            planCont_pstep_ok, planCont_pwrite, planCont_pdone,
            planCont_mk_none, planCont_mk_some, setField_mid,
            assignSD_mid_err, assignSD_mid_ok, pdone, pstep_okv,
            pstep_errv, pwrite_pair, planCont_seq_write1,
            planCont_seq_err1, List.append_assoc]
    simp only [stepE, bind, Except.bind, planCont_pstep_ok]
    rcases hasBat with _ | _
    ·
      simp only [Bool.false_eq_true, if_false, planCont_seq, pdone, pure,
        Except.pure, bind, Except.bind, List.append_nil]
      rcases he : jGetE sd "eco" with e | eco
      · simp [*, stepE, bind, Except.bind, planCont_pstep_err,
            planCont_pstep_ok, planCont_pwrite, planCont_pdone,
            planCont_mk_none, planCont_mk_some, setField_mid,
            assignSD_mid_err, assignSD_mid_ok, pdone, pstep_okv,
            pstep_errv, pwrite_pair, planCont_seq_write1,
            planCont_seq_err1, List.append_assoc]
      rcases hm : jGetE eco "mode" with e | m
      · simp [*, stepE, bind, Except.bind, planCont_pstep_err,
            planCont_pstep_ok, planCont_pwrite, planCont_pdone,
            planCont_mk_none, planCont_mk_some, setField_mid,
            assignSD_mid_err, assignSD_mid_ok, pdone, pstep_okv,
            pstep_errv, pwrite_pair, planCont_seq_write1,
            planCont_seq_err1, List.append_assoc]
      simp only [stepE, bind, Except.bind, planCont_pstep_ok, setField_mid,
        planCont_pwrite]
      rcases hhw : jGetDE sd "has_hot_water_control" (.jbool false)
        with e | hw2
      · simp [*, stepE, bind, Except.bind, planCont_pstep_err,
            planCont_pstep_ok, planCont_pwrite, planCont_pdone,
            planCont_mk_none, planCont_mk_some, setField_mid,
            assignSD_mid_err, assignSD_mid_ok, pdone, pstep_okv,
            pstep_errv, pwrite_pair, planCont_seq_write1,
            planCont_seq_err1, List.append_assoc]
      simp only [stepE, bind, Except.bind, planCont_pstep_ok]
      rcases hwt : jTruthy hw2 with _ | _
      · simp only [hwt, Bool.false_eq_true, if_false, setField_mid, stepE,
          planCont_pwrite, planCont_pdone]
        simp [*, stepE, bind, Except.bind, planCont_pstep_err,
            planCont_pstep_ok, planCont_pwrite, planCont_pdone,
            planCont_mk_none, planCont_mk_some, setField_mid,
            assignSD_mid_err, assignSD_mid_ok, pdone, pstep_okv,
            pstep_errv, pwrite_pair, planCont_seq_write1,
            planCont_seq_err1, List.append_assoc]
      · simp only [hwt, if_true, setField_mid, stepE, bind, Except.bind,
          planCont_pwrite]
        rcases hx1 : jGetDE sd "hot_water_active" (.jbool false) with e | x1
        · simp [*, stepE, bind, Except.bind, planCont_pstep_err,
            planCont_pstep_ok, planCont_pwrite, planCont_pdone,
            planCont_mk_none, planCont_mk_some, setField_mid,
            assignSD_mid_err, assignSD_mid_ok, pdone, pstep_okv,
            pstep_errv, pwrite_pair, planCont_seq_write1,
            planCont_seq_err1, List.append_assoc]
        rcases hx2 : jGetDE sd "hot_water_boiling_state" (.jbool false)
          with e | x2
        · simp [*, stepE, bind, Except.bind, planCont_pstep_err,
            planCont_pstep_ok, planCont_pwrite, planCont_pdone,
            planCont_mk_none, planCont_mk_some, setField_mid,
            assignSD_mid_err, assignSD_mid_ok, pdone, pstep_okv,
            pstep_errv, pwrite_pair, planCont_seq_write1,
            planCont_seq_err1, List.append_assoc]
        rcases hx3 : jGetDE sd "hot_water_away_active" (.jbool false)
          with e | x3
        · simp [*, stepE, bind, Except.bind, planCont_pstep_err,
            planCont_pstep_ok, planCont_pwrite, planCont_pdone,
            planCont_mk_none, planCont_mk_some, setField_mid,
            assignSD_mid_err, assignSD_mid_ok, pdone, pstep_okv,
            pstep_errv, pwrite_pair, planCont_seq_write1,
            planCont_seq_err1, List.append_assoc]
        rcases hx4 : jGetDE sd "hot_water_mode" (.jstr "off") with e | x4
        · simp [*, stepE, bind, Except.bind, planCont_pstep_err,
            planCont_pstep_ok, planCont_pwrite, planCont_pdone,
            planCont_mk_none, planCont_mk_some, setField_mid,
            assignSD_mid_err, assignSD_mid_ok, pdone, pstep_okv,
            pstep_errv, pwrite_pair, planCont_seq_write1,
            planCont_seq_err1, List.append_assoc]
        rcases hx5 : jGetDE sd "hot_water_away_enabled" (.jbool false)
          with e | x5
        · simp [*, stepE, bind, Except.bind, planCont_pstep_err,
            planCont_pstep_ok, planCont_pwrite, planCont_pdone,
            planCont_mk_none, planCont_mk_some, setField_mid,
            assignSD_mid_err, assignSD_mid_ok, pdone, pstep_okv,
            pstep_errv, pwrite_pair, planCont_seq_write1,
            planCont_seq_err1, List.append_assoc]
        rcases hx6 : jGetDE sd "hot_water_boost_time_to_end" (.jnum 0)
          with e | x6
        · simp [*, stepE, bind, Except.bind, planCont_pstep_err,
            planCont_pstep_ok, planCont_pwrite, planCont_pdone,
            planCont_mk_none, planCont_mk_some, setField_mid,
            assignSD_mid_err, assignSD_mid_ok, pdone, pstep_okv,
            pstep_errv, pwrite_pair, planCont_seq_write1,
            planCont_seq_err1, List.append_assoc]
        simp [*, stepE, bind, Except.bind, planCont_pstep_err,
            planCont_pstep_ok, planCont_pwrite, planCont_pdone,
            planCont_mk_none, planCont_mk_some, setField_mid,
            assignSD_mid_err, assignSD_mid_ok, pdone, pstep_okv,
            pstep_errv, pwrite_pair, planCont_seq_write1,
            planCont_seq_err1, List.append_assoc]
    ·
      rcases hbv : jGetE sd "battery_level" with e | bv
      · simp [*, stepE, bind, Except.bind, planCont_pstep_err,
            planCont_pstep_ok, planCont_pwrite, planCont_pdone,
            planCont_mk_none, planCont_mk_some, setField_mid,
            assignSD_mid_err, assignSD_mid_ok, pdone, pstep_okv,
            pstep_errv, pwrite_pair, planCont_seq_write1,
            planCont_seq_err1, List.append_assoc]
      simp only [if_true, stepE, bind, Except.bind, planCont_pstep_ok,
        setField_mid, pdone, pstep_okv, pwrite_pair]
      rw [planCont_seq_write1]
      rcases he : jGetE sd "eco" with e | eco
      · simp [*, stepE, bind, Except.bind, planCont_pstep_err,
            planCont_pstep_ok, planCont_pwrite, planCont_pdone,
            planCont_mk_none, planCont_mk_some, setField_mid,
            assignSD_mid_err, assignSD_mid_ok, pdone, pstep_okv,
            pstep_errv, pwrite_pair, planCont_seq_write1,
            planCont_seq_err1, List.append_assoc]
      rcases hm : jGetE eco "mode" with e | m
      · simp [*, stepE, bind, Except.bind, planCont_pstep_err,
            planCont_pstep_ok, planCont_pwrite, planCont_pdone,
            planCont_mk_none, planCont_mk_some, setField_mid,
            assignSD_mid_err, assignSD_mid_ok, pdone, pstep_okv,
            pstep_errv, pwrite_pair, planCont_seq_write1,
            planCont_seq_err1, List.append_assoc]
      simp only [stepE, bind, Except.bind, planCont_pstep_ok, setField_mid,
        planCont_pwrite]
      rcases hhw : jGetDE sd "has_hot_water_control" (.jbool false)
        with e | hw2
      · simp [*, stepE, bind, Except.bind, planCont_pstep_err,
            planCont_pstep_ok, planCont_pwrite, planCont_pdone,
            planCont_mk_none, planCont_mk_some, setField_mid,
            assignSD_mid_err, assignSD_mid_ok, pdone, pstep_okv,
            pstep_errv, pwrite_pair, planCont_seq_write1,
            planCont_seq_err1, List.append_assoc]
      simp only [stepE, bind, Except.bind, planCont_pstep_ok]
      rcases hwt : jTruthy hw2 with _ | _
      · simp only [hwt, Bool.false_eq_true, if_false, setField_mid, stepE,
          planCont_pwrite, planCont_pdone]
        simp [*, stepE, bind, Except.bind, planCont_pstep_err,
            planCont_pstep_ok, planCont_pwrite, planCont_pdone,
            planCont_mk_none, planCont_mk_some, setField_mid,
            assignSD_mid_err, assignSD_mid_ok, pdone, pstep_okv,
            pstep_errv, pwrite_pair, planCont_seq_write1,
            planCont_seq_err1, List.append_assoc]
      · simp only [hwt, if_true, setField_mid, stepE, bind, Except.bind,
          planCont_pwrite]
        rcases hx1 : jGetDE sd "hot_water_active" (.jbool false) with e | x1
        · simp [*, stepE, bind, Except.bind, planCont_pstep_err,
            planCont_pstep_ok, planCont_pwrite, planCont_pdone,
            planCont_mk_none, planCont_mk_some, setField_mid,
            assignSD_mid_err, assignSD_mid_ok, pdone, pstep_okv,
            pstep_errv, pwrite_pair, planCont_seq_write1,
            planCont_seq_err1, List.append_assoc]
        rcases hx2 : jGetDE sd "hot_water_boiling_state" (.jbool false)
          with e | x2
        · simp [*, stepE, bind, Except.bind, planCont_pstep_err,
            planCont_pstep_ok, planCont_pwrite, planCont_pdone,
            planCont_mk_none, planCont_mk_some, setField_mid,
            assignSD_mid_err, assignSD_mid_ok, pdone, pstep_okv,
            pstep_errv, pwrite_pair, planCont_seq_write1,
            planCont_seq_err1, List.append_assoc]
        rcases hx3 : jGetDE sd "hot_water_away_active" (.jbool false)
          with e | x3
        · simp [*, stepE, bind, Except.bind, planCont_pstep_err,
            planCont_pstep_ok, planCont_pwrite, planCont_pdone,
            planCont_mk_none, planCont_mk_some, setField_mid,
            assignSD_mid_err, assignSD_mid_ok, pdone, pstep_okv,
            pstep_errv, pwrite_pair, planCont_seq_write1,
            planCont_seq_err1, List.append_assoc]
        rcases hx4 : jGetDE sd "hot_water_mode" (.jstr "off") with e | x4
        · simp [*, stepE, bind, Except.bind, planCont_pstep_err,
            planCont_pstep_ok, planCont_pwrite, planCont_pdone,
            planCont_mk_none, planCont_mk_some, setField_mid,
            assignSD_mid_err, assignSD_mid_ok, pdone, pstep_okv,
            pstep_errv, pwrite_pair, planCont_seq_write1,
            planCont_seq_err1, List.append_assoc]
        rcases hx5 : jGetDE sd "hot_water_away_enabled" (.jbool false)
          with e | x5
        · simp [*, stepE, bind, Except.bind, planCont_pstep_err,
            planCont_pstep_ok, planCont_pwrite, planCont_pdone,
            planCont_mk_none, planCont_mk_some, setField_mid,
            assignSD_mid_err, assignSD_mid_ok, pdone, pstep_okv,
            pstep_errv, pwrite_pair, planCont_seq_write1,
            planCont_seq_err1, List.append_assoc]
        rcases hx6 : jGetDE sd "hot_water_boost_time_to_end" (.jnum 0)
          with e | x6
        · simp [*, stepE, bind, Except.bind, planCont_pstep_err,
            planCont_pstep_ok, planCont_pwrite, planCont_pdone,
            planCont_mk_none, planCont_mk_some, setField_mid,
            assignSD_mid_err, assignSD_mid_ok, pdone, pstep_okv,
            pstep_errv, pwrite_pair, planCont_seq_write1,
            planCont_seq_err1, List.append_assoc]
        simp [*, stepE, bind, Except.bind, planCont_pstep_err,
            planCont_pstep_ok, planCont_pwrite, planCont_pdone,
            planCont_mk_none, planCont_mk_some, setField_mid,
            assignSD_mid_err, assignSD_mid_ok, pdone, pstep_okv,
            pstep_errv, pwrite_pair, planCont_seq_write1,
            planCont_seq_err1, List.append_assoc]
  ·
    rcases hbt : jGetE sd "backplate_temperature" with e | bt
    · simp [*, stepE, bind, Except.bind, planCont_pstep_err,
            planCont_pstep_ok, planCont_pwrite, planCont_pdone,
            planCont_mk_none, planCont_mk_some, setField_mid,
            assignSD_mid_err, assignSD_mid_ok, pdone, pstep_okv,
            pstep_errv, pwrite_pair, planCont_seq_write1,
            planCont_seq_err1, List.append_assoc]
    simp only [if_true, stepE, bind, Except.bind, planCont_pstep_ok,
      setField_mid, pdone, pstep_okv, pwrite_pair]
    rw [planCont_seq_write1]
    rcases hbat : jHasKeyE sd "battery_level" with e | hasBat
    · simp [*, stepE, bind, Except.bind, planCont_pstep_err,
            planCont_pstep_ok, planCont_pwrite, planCont_pdone,
            planCont_mk_none, planCont_mk_some, setField_mid,
            assignSD_mid_err, assignSD_mid_ok, pdone, pstep_okv,
            pstep_errv, pwrite_pair, planCont_seq_write1,
            planCont_seq_err1, List.append_assoc]
    simp only [stepE, bind, Except.bind, planCont_pstep_ok]
    rcases hasBat with _ | _
    ·
      simp only [Bool.false_eq_true, if_false, planCont_seq, pdone, pure,
        Except.pure, bind, Except.bind, List.append_nil]
      rcases he : jGetE sd "eco" with e | eco
      · simp [*, stepE, bind, Except.bind, planCont_pstep_err,
            planCont_pstep_ok, planCont_pwrite, planCont_pdone,
            planCont_mk_none, planCont_mk_some, setField_mid,
            assignSD_mid_err, assignSD_mid_ok, pdone, pstep_okv,
            pstep_errv, pwrite_pair, planCont_seq_write1,
            planCont_seq_err1, List.append_assoc]
      rcases hm : jGetE eco "mode" with e | m
      · simp [*, stepE, bind, Except.bind, planCont_pstep_err,
            planCont_pstep_ok, planCont_pwrite, planCont_pdone,
            planCont_mk_none, planCont_mk_some, setField_mid,
            assignSD_mid_err, assignSD_mid_ok, pdone, pstep_okv,
            pstep_errv, pwrite_pair, planCont_seq_write1,
            planCont_seq_err1, List.append_assoc]
      simp only [stepE, bind, Except.bind, planCont_pstep_ok, setField_mid,
        planCont_pwrite]
      rcases hhw : jGetDE sd "has_hot_water_control" (.jbool false)
        with e | hw2
      · simp [*, stepE, bind, Except.bind, planCont_pstep_err,
            planCont_pstep_ok, planCont_pwrite, planCont_pdone,
            planCont_mk_none, planCont_mk_some, setField_mid,
            assignSD_mid_err, assignSD_mid_ok, pdone, pstep_okv,
            pstep_errv, pwrite_pair, planCont_seq_write1,
            planCont_seq_err1, List.append_assoc]
      simp only [stepE, bind, Except.bind, planCont_pstep_ok]
      rcases hwt : jTruthy hw2 with _ | _
      · simp only [hwt, Bool.false_eq_true, if_false, setField_mid, stepE,
          planCont_pwrite, planCont_pdone]
        simp [*, stepE, bind, Except.bind, planCont_pstep_err,
            planCont_pstep_ok, planCont_pwrite, planCont_pdone,
            planCont_mk_none, planCont_mk_some, setField_mid,
            assignSD_mid_err, assignSD_mid_ok, pdone, pstep_okv,
            pstep_errv, pwrite_pair, planCont_seq_write1,
            planCont_seq_err1, List.append_assoc]
      · simp only [hwt, if_true, setField_mid, stepE, bind, Except.bind,
          planCont_pwrite]
        rcases hx1 : jGetDE sd "hot_water_active" (.jbool false) with e | x1
        · simp [*, stepE, bind, Except.bind, planCont_pstep_err,
            planCont_pstep_ok, planCont_pwrite, planCont_pdone,
            planCont_mk_none, planCont_mk_some, setField_mid,
            assignSD_mid_err, assignSD_mid_ok, pdone, pstep_okv,
            pstep_errv, pwrite_pair, planCont_seq_write1,
            planCont_seq_err1, List.append_assoc]
        rcases hx2 : jGetDE sd "hot_water_boiling_state" (.jbool false)
          with e | x2
        · simp [*, stepE, bind, Except.bind, planCont_pstep_err,
            planCont_pstep_ok, planCont_pwrite, planCont_pdone,
            planCont_mk_none, planCont_mk_some, setField_mid,
            assignSD_mid_err, assignSD_mid_ok, pdone, pstep_okv,
            pstep_errv, pwrite_pair, planCont_seq_write1,
            planCont_seq_err1, List.append_assoc]
        rcases hx3 : jGetDE sd "hot_water_away_active" (.jbool false)
          with e | x3
        · simp [*, stepE, bind, Except.bind, planCont_pstep_err,
            planCont_pstep_ok, planCont_pwrite, planCont_pdone,
            planCont_mk_none, planCont_mk_some, setField_mid,
            assignSD_mid_err, assignSD_mid_ok, pdone, pstep_okv,
            pstep_errv, pwrite_pair, planCont_seq_write1,
            planCont_seq_err1, List.append_assoc]
        rcases hx4 : jGetDE sd "hot_water_mode" (.jstr "off") with e | x4
        · simp [*, stepE, bind, Except.bind, planCont_pstep_err,
            planCont_pstep_ok, planCont_pwrite, planCont_pdone,
            planCont_mk_none, planCont_mk_some, setField_mid,
            assignSD_mid_err, assignSD_mid_ok, pdone, pstep_okv,
            pstep_errv, pwrite_pair, planCont_seq_write1,
            planCont_seq_err1, List.append_assoc]
        rcases hx5 : jGetDE sd "hot_water_away_enabled" (.jbool false)
          with e | x5
        · simp [*, stepE, bind, Except.bind, planCont_pstep_err,
            planCont_pstep_ok, planCont_pwrite, planCont_pdone,
            planCont_mk_none, planCont_mk_some, setField_mid,
            assignSD_mid_err, assignSD_mid_ok, pdone, pstep_okv,
            pstep_errv, pwrite_pair, planCont_seq_write1,
            planCont_seq_err1, List.append_assoc]
        rcases hx6 : jGetDE sd "hot_water_boost_time_to_end" (.jnum 0)
          with e | x6
        · simp [*, stepE, bind, Except.bind, planCont_pstep_err,
            planCont_pstep_ok, planCont_pwrite, planCont_pdone,
            planCont_mk_none, planCont_mk_some, setField_mid,
            assignSD_mid_err, assignSD_mid_ok, pdone, pstep_okv,
            pstep_errv, pwrite_pair, planCont_seq_write1,
            planCont_seq_err1, List.append_assoc]
        simp [*, stepE, bind, Except.bind, planCont_pstep_err,
            planCont_pstep_ok, planCont_pwrite, planCont_pdone,
            planCont_mk_none, planCont_mk_some, setField_mid,
            assignSD_mid_err, assignSD_mid_ok, pdone, pstep_okv,
            pstep_errv, pwrite_pair, planCont_seq_write1,
            planCont_seq_err1, List.append_assoc]
    ·
      rcases hbv : jGetE sd "battery_level" with e | bv
      · simp [*, stepE, bind, Except.bind, planCont_pstep_err,
            planCont_pstep_ok, planCont_pwrite, planCont_pdone,
            planCont_mk_none, planCont_mk_some, setField_mid,
            assignSD_mid_err, assignSD_mid_ok, pdone, pstep_okv,
            pstep_errv, pwrite_pair, planCont_seq_write1,
            planCont_seq_err1, List.append_assoc]
      simp only [if_true, stepE, bind, Except.bind, planCont_pstep_ok,
        setField_mid, pdone, pstep_okv, pwrite_pair]
      rw [planCont_seq_write1]
      rcases he : jGetE sd "eco" with e | eco
      · simp [*, stepE, bind, Except.bind, planCont_pstep_err,
            planCont_pstep_ok, planCont_pwrite, planCont_pdone,
            planCont_mk_none, planCont_mk_some, setField_mid,
            assignSD_mid_err, assignSD_mid_ok, pdone, pstep_okv,
            pstep_errv, pwrite_pair, planCont_seq_write1,
            planCont_seq_err1, List.append_assoc]
      rcases hm : jGetE eco "mode" with e | m
      · simp [*, stepE, bind, Except.bind, planCont_pstep_err,
            planCont_pstep_ok, planCont_pwrite, planCont_pdone,
            planCont_mk_none, planCont_mk_some, setField_mid,
            assignSD_mid_err, assignSD_mid_ok, pdone, pstep_okv,
            pstep_errv, pwrite_pair, planCont_seq_write1,
            planCont_seq_err1, List.append_assoc]
      simp only [stepE, bind, Except.bind, planCont_pstep_ok, setField_mid,
        planCont_pwrite]
      rcases hhw : jGetDE sd "has_hot_water_control" (.jbool false)
        with e | hw2
      · simp [*, stepE, bind, Except.bind, planCont_pstep_err,
            planCont_pstep_ok, planCont_pwrite, planCont_pdone,
            planCont_mk_none, planCont_mk_some, setField_mid,
            assignSD_mid_err, assignSD_mid_ok, pdone, pstep_okv,
            pstep_errv, pwrite_pair, planCont_seq_write1,
            planCont_seq_err1, List.append_assoc]
      simp only [stepE, bind, Except.bind, planCont_pstep_ok]
      rcases hwt : jTruthy hw2 with _ | _
      · simp only [hwt, Bool.false_eq_true, if_false, setField_mid, stepE,
          planCont_pwrite, planCont_pdone]
        simp [*, stepE, bind, Except.bind, planCont_pstep_err,
            planCont_pstep_ok, planCont_pwrite, planCont_pdone,
            planCont_mk_none, planCont_mk_some, setField_mid,
            assignSD_mid_err, assignSD_mid_ok, pdone, pstep_okv,
            pstep_errv, pwrite_pair, planCont_seq_write1,
            planCont_seq_err1, List.append_assoc]
      · simp only [hwt, if_true, setField_mid, stepE, bind, Except.bind,
          planCont_pwrite]
        rcases hx1 : jGetDE sd "hot_water_active" (.jbool false) with e | x1
        · simp [*, stepE, bind, Except.bind, planCont_pstep_err,
            planCont_pstep_ok, planCont_pwrite, planCont_pdone,
            planCont_mk_none, planCont_mk_some, setField_mid,
            assignSD_mid_err, assignSD_mid_ok, pdone, pstep_okv,
            pstep_errv, pwrite_pair, planCont_seq_write1,
            planCont_seq_err1, List.append_assoc]
        rcases hx2 : jGetDE sd "hot_water_boiling_state" (.jbool false)
          with e | x2
        · simp [*, stepE, bind, Except.bind, planCont_pstep_err,
            planCont_pstep_ok, planCont_pwrite, planCont_pdone,
            planCont_mk_none, planCont_mk_some, setField_mid,
            assignSD_mid_err, assignSD_mid_ok, pdone, pstep_okv,
            pstep_errv, pwrite_pair, planCont_seq_write1,
            planCont_seq_err1, List.append_assoc]
        rcases hx3 : jGetDE sd "hot_water_away_active" (.jbool false)
          with e | x3
        · simp [*, stepE, bind, Except.bind, planCont_pstep_err,
            planCont_pstep_ok, planCont_pwrite, planCont_pdone,
            planCont_mk_none, planCont_mk_some, setField_mid,
            assignSD_mid_err, assignSD_mid_ok, pdone, pstep_okv,
            pstep_errv, pwrite_pair, planCont_seq_write1,
            planCont_seq_err1, List.append_assoc]
        rcases hx4 : jGetDE sd "hot_water_mode" (.jstr "off") with e | x4
        · simp [*, stepE, bind, Except.bind, planCont_pstep_err,
            planCont_pstep_ok, planCont_pwrite, planCont_pdone,
            planCont_mk_none, planCont_mk_some, setField_mid,
            assignSD_mid_err, assignSD_mid_ok, pdone, pstep_okv,
            pstep_errv, pwrite_pair, planCont_seq_write1,
            planCont_seq_err1, List.append_assoc]
        rcases hx5 : jGetDE sd "hot_water_away_enabled" (.jbool false)
          with e | x5
        · simp [*, stepE, bind, Except.bind, planCont_pstep_err,
            planCont_pstep_ok, planCont_pwrite, planCont_pdone,
            planCont_mk_none, planCont_mk_some, setField_mid,
            assignSD_mid_err, assignSD_mid_ok, pdone, pstep_okv,
            pstep_errv, pwrite_pair, planCont_seq_write1,
            planCont_seq_err1, List.append_assoc]
        rcases hx6 : jGetDE sd "hot_water_boost_time_to_end" (.jnum 0)
          with e | x6
        · simp [*, stepE, bind, Except.bind, planCont_pstep_err,
            planCont_pstep_ok, planCont_pwrite, planCont_pdone,
            planCont_mk_none, planCont_mk_some, setField_mid,
            assignSD_mid_err, assignSD_mid_ok, pdone, pstep_okv,
            pstep_errv, pwrite_pair, planCont_seq_write1,
            planCont_seq_err1, List.append_assoc]
        simp [*, stepE, bind, Except.bind, planCont_pstep_err,
            planCont_pstep_ok, planCont_pwrite, planCont_pdone,
            planCont_mk_none, planCont_mk_some, setField_mid,
            assignSD_mid_err, assignSD_mid_ok, pdone, pstep_okv,
            pstep_errv, pwrite_pair, planCont_seq_write1,
            planCont_seq_err1, List.append_assoc]

/-! ### The kryptonite-bucket decoder as a plan -/

/-- Write plan of `_process_temperature_sensor`: display name plus the two
required copies. -/
def kryptonitePlan (sd : JVal) (w : JVal → Option JVal) :
    List (String × JVal) × Option PyError :=
  planSeq (buildNamePlan sd w " Temperature") (
  pstep (jGetE sd "current_temperature") fun t =>
  pwrite ("temperature", t) (
  pstep (jGetE sd "battery_level") fun bv =>
  pwrite ("battery_level", bv) pdone))

theorem kryptonite_from_mid (sn : String) (sd : JVal) (s : NestState)
    (r : Rec) (L : List (String × JVal)) :
    process_temperature_sensor sn sd (mkMid s sn r L) =
      planCont sn s r L (kryptonitePlan sd s.wheres) := by
  unfold process_temperature_sensor kryptonitePlan
  rw [buildName_from_mid]
  rcases hbn : buildNamePlan sd s.wheres " Temperature" with ⟨BL, BE⟩
  rcases BE with _ | e
  case some =>
    simp only [planCont_seq]
    simp [planCont_mk_some, bind, Except.bind]
  simp only [planCont_seq]
  simp only [planCont_mk_none, bind, Except.bind]
  rcases h1 : jGetE sd "current_temperature" with e | t
  · simp [*, stepE, bind, Except.bind, planCont_pstep_err,
      planCont_pstep_ok, planCont_pwrite, planCont_pdone,
      planCont_mk_none, planCont_mk_some, setField_mid,
      assignSD_mid_err, assignSD_mid_ok, List.append_assoc]
  rcases h2 : jGetE sd "battery_level" with e | bv
  · simp [*, stepE, bind, Except.bind, planCont_pstep_err,
      planCont_pstep_ok, planCont_pwrite, planCont_pdone,
      planCont_mk_none, planCont_mk_some, setField_mid,
      assignSD_mid_err, assignSD_mid_ok, List.append_assoc]
  simp [*, stepE, bind, Except.bind, planCont_pstep_err,
      planCont_pstep_ok, planCont_pwrite, planCont_pdone,
      planCont_mk_none, planCont_mk_some, setField_mid,
      assignSD_mid_err, assignSD_mid_ok, List.append_assoc]

/-! ### The topaz-bucket decoder as a plan -/

theorem jGetE_ok_obj {sd : JVal} {k : String} {v : JVal}
    (h : jGetE sd k = Except.ok v) : ∃ kvs, sd = JVal.jobj kvs := by
  cases sd <;> simp [jGetE] at h ⊢

/-- Total form of `.get(k, default)`; only evaluated on dicts (the plans
using it are guarded behind a successful raw subscript on the same value). -/
def jGetD (sd : JVal) (k : String) (d : JVal) : JVal :=
  match sd with
  | .jobj kvs => (jlookup kvs k).getD d
  | _ => d

theorem mkMid_bulk {s : NestState} {sn : String} {r : Rec}
    (L E : List (String × JVal)) :
    ({ mkMid s sn r L with
        device_data :=
          setM (mkMid s sn r L).device_data sn (applyM E (applyM L r)) }
      : NestState) = mkMid s sn r (L ++ E) := by
  simp [mkMid, setM_setM_same, applyM_append]

/-- The 13-entry bulk write of `_process_protect`, as a pure function of the
bucket body and the three required status reads. -/
def protectEntries (sd co smoke bhs : JVal) : List (String × JVal) :=
  [("co_status", .jstr (map_nest_protect_state co)),
   ("smoke_status", .jstr (map_nest_protect_state smoke)),
   ("battery_health_state", .jstr (map_nest_protect_state bhs)),
   ("battery_level", jGetD sd "battery_level" .null),
   ("steam_detection_enable", jGetD sd "steam_detection_enable" .null),
   ("night_light", .jobj [
     ("enabled", jGetD sd "night_light_enable" .null),
     ("brightness", jGetD sd "night_light_brightness" .null),
     ("continuous", jGetD sd "night_light_continuous" .null)]),
   ("auto_away", jGetD sd "auto_away" .null),
   ("component_tests", .jobj [
     ("smoke", jGetD sd "component_smoke_test_passed" .null),
     ("co", jGetD sd "component_co_test_passed" .null),
     ("humidity", jGetD sd "component_hum_test_passed" .null),
     ("temperature", jGetD sd "component_temp_test_passed" .null),
     ("pir", jGetD sd "component_pir_test_passed" .null),
     ("audio", jGetD sd "component_speaker_test_passed" .null),
     ("wifi", jGetD sd "component_wifi_test_passed" .null)]),
   ("network", .jobj [
     ("wifi", .jobj [("ip", jGetD sd "wifi_ip_address" .null)]),
     ("thread", .jobj [("ip", jGetD sd "thread_ip_address" .null)])]),
   ("last_test_start", jGetD sd "latest_manual_test_start_utc_secs" .null),
   ("last_test_end", jGetD sd "latest_manual_test_end_utc_secs" .null),
   ("last_audio_test_start",
     jGetD sd "last_audio_self_test_start_utc_secs" .null),
   ("last_audio_test_end",
     jGetD sd "last_audio_self_test_end_utc_secs" .null)]

/-- Write plan of `_process_protect`: display name, then the three required
status reads, then the bulk table write (the `.get`-based reads are total on
a dict and the bucket body is known to be a dict once any required read
succeeded). -/
def protectPlan (sd : JVal) (w : JVal → Option JVal) :
    List (String × JVal) × Option PyError :=
  planSeq (buildNamePlan sd w " Protect") (
  pstep (jGetE sd "co_status") fun co =>
  pstep (jGetE sd "smoke_status") fun smoke =>
  pstep (jGetE sd "battery_health_state") fun bhs =>
  (protectEntries sd co smoke bhs, none))

theorem protect_from_mid (sn : String) (sd : JVal) (s : NestState)
    (r : Rec) (L : List (String × JVal)) :
    process_protect sn sd (mkMid s sn r L) =
      planCont sn s r L (protectPlan sd s.wheres) := by
  unfold process_protect protectPlan
  rw [buildName_from_mid]
  rcases hbn : buildNamePlan sd s.wheres " Protect" with ⟨BL, BE⟩
  rcases BE with _ | e
  case some =>
    simp only [planCont_seq]
    simp [planCont_mk_some, bind, Except.bind]
  simp only [planCont_seq]
  simp only [planCont_mk_none, bind, Except.bind]
  rcases hw : jGetE sd "where_id" with e | wid
  · exfalso
    unfold buildNamePlan at hbn
    rw [hw] at hbn
    simp [pstep] at hbn
  obtain ⟨kvs, rfl⟩ := jGetE_ok_obj hw
  rcases h1 : jGetE (JVal.jobj kvs) "co_status" with e | co
  · simp [*, stepE, bind, Except.bind, getRecE_mid, planCont_pstep_err,
      planCont_pstep_ok, planCont_mk_none, planCont_mk_some,
      List.append_assoc]
  rcases h2 : jGetE (JVal.jobj kvs) "smoke_status" with e | smoke
  · simp [*, stepE, bind, Except.bind, getRecE_mid, planCont_pstep_err,
      planCont_pstep_ok, planCont_mk_none, planCont_mk_some,
      List.append_assoc]
  rcases h3 : jGetE (JVal.jobj kvs) "battery_health_state" with e | bhs
  · simp [*, stepE, bind, Except.bind, getRecE_mid, planCont_pstep_err,
      planCont_pstep_ok, planCont_mk_none, planCont_mk_some,
      List.append_assoc]
  simp only [*, stepE, bind, Except.bind, getRecE_mid, planCont_pstep_ok,
    planCont_mk_none, jGetDE, protectEntries, jGetD]
  rw [mkMid_bulk]

/-! ### The quartz-bucket decoder as a plan -/

/-- The parse chain of `_get_cameras_updates_pt2` inside its try block. -/
def pt2Inner (resp : RespVal) : Except PyError JVal := do
  let items ← respGetE resp "items"
  let sensor ← jIdxE items 0
  let props ← jGetE sensor "properties"
  jGetE props "doorbell.indoor_chime.enabled"

/-- Write plan of `_get_cameras_updates_pt2`: the GET is outside the
method's try (its error propagates), the parse chain is inside it and only
IndexError/KeyError are swallowed. -/
def pt2Plan (camResp : Except PyError RespVal) :
    List (String × JVal) × Option PyError :=
  pstep camResp fun resp =>
  match pt2Inner resp with
  | .ok v => ([("chime_state", v)], none)
  | .error e =>
    if e = .indexError ∨ e = .keyError then ([], none) else ([], some e)

theorem pt2_from_mid (camResp : Except PyError RespVal) (sn : String)
    (s : NestState) (r : Rec) (L : List (String × JVal)) :
    get_cameras_updates_pt2 camResp sn (mkMid s sn r L) =
      planCont sn s r L (pt2Plan camResp) := by
  unfold get_cameras_updates_pt2 pt2Plan pt2Inner
  rcases hc : camResp with e | resp
  · simp [stepE, bind, Except.bind, planCont_pstep_err]
  simp only [stepE, bind, Except.bind, planCont_pstep_ok]
  rcases h1 : respGetE resp "items" with e | items
  · by_cases he : e = PyError.indexError ∨ e = PyError.keyError <;>
      simp [*, bind, Except.bind, planCont_mk_none, planCont_mk_some,
        List.append_nil]
  rcases h2 : jIdxE items 0 with e | sensor
  · by_cases he : e = PyError.indexError ∨ e = PyError.keyError <;>
      simp [*, bind, Except.bind, planCont_mk_none, planCont_mk_some,
        List.append_nil]
  rcases h3 : jGetE sensor "properties" with e | props
  · by_cases he : e = PyError.indexError ∨ e = PyError.keyError <;>
      simp [*, bind, Except.bind, planCont_mk_none, planCont_mk_some,
        List.append_nil]
  rcases h4 : jGetE props "doorbell.indoor_chime.enabled" with e | v
  · by_cases he : e = PyError.indexError ∨ e = PyError.keyError <;>
      simp [*, bind, Except.bind, planCont_mk_none, planCont_mk_some,
        List.append_nil]
  simp [*, bind, Except.bind, setField_mid, planCont_mk_none,
    planCont_mk_some]

/-- Write plan of `_process_camera`: location name (no description handling
and no suffix), model and streaming-state copies, then the chime branch with
the pt2 follow-up call. -/
def quartzPlan (camResp : Except PyError RespVal) (sd : JVal)
    (w : JVal → Option JVal) : List (String × JVal) × Option PyError :=
  pstep (jGetE sd "where_id") fun wid =>
  pstep (lookupWhereP w wid) fun nm =>
  pwrite ("name", nm) (
  pstep (jGetE sd "model") fun mo =>
  pwrite ("model", mo) (
  pstep (jGetE sd "streaming_state") fun ss =>
  pwrite ("streaming_state", ss) (
  pstep (jGetE sd "capabilities") fun caps =>
  pstep (jContainsE caps "indoor_chime") fun chime =>
  if chime then
    pwrite ("indoor_chime", .jbool true) (pt2Plan camResp)
  else
    pwrite ("indoor_chime", .jbool false) pdone)))

theorem camera_from_mid (camResp : Except PyError RespVal) (sn : String)
    (sd : JVal) (s : NestState) (r : Rec) (L : List (String × JVal)) :
    process_camera camResp sn sd (mkMid s sn r L) =
      planCont sn s r L (quartzPlan camResp sd s.wheres) := by
  unfold process_camera quartzPlan
  rcases hw : jGetE sd "where_id" with e | wid
  · simp [stepE, bind, Except.bind, planCont_pstep_err]
  rcases hl : lookupWhereP s.wheres wid with e | nm
  · simp [stepE, hl, lookupWhere_mid, bind, Except.bind, planCont_pstep_ok,
      planCont_pstep_err]
  rcases hm : jGetE sd "model" with e | mo
  · simp [*, stepE, lookupWhere_mid, bind, Except.bind, planCont_pstep_ok,
      planCont_pstep_err, planCont_pwrite, setField_mid, assignSD_mid_err,
      assignSD_mid_ok, List.append_assoc]
  rcases hss : jGetE sd "streaming_state" with e | ss
  · simp [*, stepE, lookupWhere_mid, bind, Except.bind, planCont_pstep_ok,
      planCont_pstep_err, planCont_pwrite, setField_mid, assignSD_mid_err,
      assignSD_mid_ok, List.append_assoc]
  rcases hcap : jGetE sd "capabilities" with e | caps
  · simp [*, stepE, lookupWhere_mid, bind, Except.bind, planCont_pstep_ok,
      planCont_pstep_err, planCont_pwrite, setField_mid, assignSD_mid_err,
      assignSD_mid_ok, List.append_assoc]
  rcases hch : jContainsE caps "indoor_chime" with e | chime
  · simp [*, stepE, lookupWhere_mid, bind, Except.bind, planCont_pstep_ok,
      planCont_pstep_err, planCont_pwrite, setField_mid, assignSD_mid_err,
      assignSD_mid_ok, List.append_assoc]
  rcases chime with _ | _
  · simp [*, stepE, lookupWhere_mid, bind, Except.bind, planCont_pstep_ok,
      planCont_pstep_err, planCont_pwrite, planCont_pdone, setField_mid,
      assignSD_mid_err, assignSD_mid_ok, List.append_assoc]
  · simp only [lookupWhere_mid, hl, hch, assignSD_mid_ok hm,
      assignSD_mid_ok hss, setField_mid, stepE, bind, Except.bind, if_true]
    rw [pt2_from_mid]
    simp [planCont_pstep_ok, hl, hch, planCont_pwrite, List.append_assoc]

/-! ### Decoder behaviour when the serial has no table entry -/

theorem buildName_noDom {s : NestState} {sn : String} {sd : JVal}
    {suffix : String} (hdd : s.device_data sn = none) :
    buildName sn sd suffix s = .error (firstErr (jGetE sd "where_id"), s) := by
  unfold buildName firstErr
  rcases hw : jGetE sd "where_id" with e | wid
  · simp [stepE, bind, Except.bind]
  rcases hwv : s.wheres wid with _ | nm <;>
    simp [stepE, bind, Except.bind, lookupWhere, hwv, setField, hdd]

theorem shared_noDom {s : NestState} {sn : String} {sd : JVal}
    (hdd : s.device_data sn = none) :
    process_thermostat_shared sn sd s =
      .error (firstErr (jGetE sd "current_temperature"), s) := by
  unfold process_thermostat_shared firstErr
  rcases h1 : jGetE sd "current_temperature" with e | v
  · simp [assignSD, stepE, h1, bind, Except.bind]
  · simp [assignSD, stepE, h1, bind, Except.bind, setField, hdd]

theorem device_noDom {s : NestState} {sn : String} {sd : JVal}
    (hdd : s.device_data sn = none) :
    process_thermostat_device sn sd s =
      .error (firstErr (jGetE sd "where_id"), s) := by
  unfold process_thermostat_device
  rw [buildName_noDom hdd]
  simp [bind, Except.bind]

theorem protect_noDom {s : NestState} {sn : String} {sd : JVal}
    (hdd : s.device_data sn = none) :
    process_protect sn sd s =
      .error (firstErr (jGetE sd "where_id"), s) := by
  unfold process_protect
  rw [buildName_noDom hdd]
  simp [bind, Except.bind]

theorem kryptonite_noDom {s : NestState} {sn : String} {sd : JVal}
    (hdd : s.device_data sn = none) :
    process_temperature_sensor sn sd s =
      .error (firstErr (jGetE sd "where_id"), s) := by
  unfold process_temperature_sensor
  rw [buildName_noDom hdd]
  simp [bind, Except.bind]

theorem camera_noDom {camResp : Except PyError RespVal} {s : NestState}
    {sn : String} {sd : JVal} (hdd : s.device_data sn = none) :
    process_camera camResp sn sd s =
      .error (firstErr (jGetE sd "where_id"), s) := by
  unfold process_camera firstErr
  rcases hw : jGetE sd "where_id" with e | wid
  · simp [stepE, bind, Except.bind]
  rcases hwv : s.wheres wid with _ | nm <;>
    simp [stepE, bind, Except.bind, lookupWhere, hwv, setField, hdd]

/-! ### The device pass as a table-write plan -/

/-- Interpreting a table-write plan at a state. -/
def planContD (s : NestState)
    (p : List (String × String × JVal) × Option PyError) :
    Except (PyError × NestState) NestState :=
  match p.2 with
  | none => .ok (mkMidD s p.1)
  | some e => .error (e, mkMidD s p.1)

theorem mkMidD_nil (s : NestState) : mkMidD s [] = s := rfl

theorem mkMidW_nil (s : NestState) : mkMidW s [] = s := rfl

theorem planContD_pstep_err {α : Type} (s : NestState) (e : PyError)
    (k : α → List (String × String × JVal) × Option PyError) :
    planContD s (pstep (Except.error e) k) = .error (e, s) := by
  simp [planContD, pstep, mkMidD_nil]

theorem planContD_pstep_ok {α : Type} (s : NestState) (a : α)
    (k : α → List (String × String × JVal) × Option PyError) :
    planContD s (pstep (Except.ok a) k) = planContD s (k a) := by
  simp [pstep]

/-- Tagging a record-write plan for one serial, provided the serial has a
table entry; an absent serial raises its decoder's first error instead. -/
def dispatchPlan (sn : String) (p : List (String × JVal) × Option PyError)
    (noDomE : PyError) (dom : Bool) :
    List (String × String × JVal) × Option PyError :=
  if dom then (p.1.map fun fv => (sn, fv.1, fv.2), p.2)
  else ([], some noDomE)

theorem planContD_tag {s : NestState} {sn : String} {r : Rec}
    (hdd : s.device_data sn = some r)
    (p : List (String × JVal) × Option PyError) :
    planContD s (p.1.map fun fv => (sn, fv.1, fv.2), p.2) =
      planCont sn s r [] p := by
  rcases p with ⟨Lw, oe⟩
  have htag := applyDD_tag sn Lw s.device_data r hdd
  rcases oe with _ | e <;>
    simp [planContD, planCont, mkMidD, mkMid, htag, List.nil_append]

theorem dispatch_case {s : NestState} {sn : String}
    {plan : List (String × JVal) × Option PyError} {noDomE : PyError}
    {procRes : Except (PyError × NestState) NestState}
    (hok : ∀ r, s.device_data sn = some r →
      procRes = planCont sn s r [] plan)
    (hnone : s.device_data sn = none → procRes = .error (noDomE, s)) :
    procRes =
      planContD s (dispatchPlan sn plan noDomE (s.device_data sn).isSome) := by
  rcases hdd : s.device_data sn with _ | r
  · rw [hnone hdd]
    simp [dispatchPlan, hdd, planContD, mkMidD_nil]
  · rw [hok r hdd]
    simp only [dispatchPlan, hdd, Option.isSome_some, if_true]
    exact (planContD_tag hdd plan).symm

/-- Table-write plan of one device-pass bucket: the four header reads, then
prefix dispatch to the per-decoder plans (unknown prefixes write nothing). -/
def devBucketPlan (cam : String → Except PyError RespVal) (bucket : JVal)
    (w : JVal → Option JVal) (dom : String → Bool) :
    List (String × String × JVal) × Option PyError :=
  pstep (jGetE bucket "value") fun sd =>
  pstep (jGetE bucket "object_key") fun okv =>
  pstep (jAsStr okv) fun okey =>
  pstep (listIdxE (pySplit okey ".") 1) fun sn =>
  if pyStartswith okey ("shared." ++ sn) then
    dispatchPlan sn (sharedPlan sd)
      (firstErr (jGetE sd "current_temperature")) (dom sn)
  else if pyStartswith okey ("device." ++ sn) then
    dispatchPlan sn (devicePlanF sd w)
      (firstErr (jGetE sd "where_id")) (dom sn)
  else if pyStartswith okey ("topaz." ++ sn) then
    dispatchPlan sn (protectPlan sd w)
      (firstErr (jGetE sd "where_id")) (dom sn)
  else if pyStartswith okey ("kryptonite." ++ sn) then
    dispatchPlan sn (kryptonitePlan sd w)
      (firstErr (jGetE sd "where_id")) (dom sn)
  else if pyStartswith okey ("quartz." ++ sn) then
    dispatchPlan sn (quartzPlan (cam sn) sd w)
      (firstErr (jGetE sd "where_id")) (dom sn)
  else
    ([], none)

theorem device_bucket_char (cam : String → Except PyError RespVal)
    (bucket : JVal) (s : NestState) :
    update_device_bucket cam bucket s =
      planContD s (devBucketPlan cam bucket s.wheres
        (fun k => (s.device_data k).isSome)) := by
  unfold update_device_bucket devBucketPlan
  rcases hv : jGetE bucket "value" with e | sd
  · simp [stepE, bind, Except.bind, planContD_pstep_err]
  rcases ho : jGetE bucket "object_key" with e | okv
  · simp [*, stepE, bind, Except.bind, planContD_pstep_err,
      planContD_pstep_ok]
  rcases hs : jAsStr okv with e | okey
  · simp [*, stepE, bind, Except.bind, planContD_pstep_err,
      planContD_pstep_ok]
  rcases hi : listIdxE (pySplit okey ".") 1 with e | sn
  · simp [*, stepE, bind, Except.bind, planContD_pstep_err,
      planContD_pstep_ok]
  simp only [*, stepE, bind, Except.bind, planContD_pstep_ok]
  rcases c1 : pyStartswith okey ("shared." ++ sn) with _ | _
  case true =>
    simp only [c1, if_true]
    refine dispatch_case (fun r hdd => ?_) (fun hdd => shared_noDom hdd)
    have hx := shared_from_mid sn sd s r []
    rw [mkMid_nil hdd] at hx
    exact hx
  simp only [c1, Bool.false_eq_true, if_false]
  rcases c2 : pyStartswith okey ("device." ++ sn) with _ | _
  case true =>
    simp only [c2, if_true]
    refine dispatch_case (fun r hdd => ?_) (fun hdd => device_noDom hdd)
    have hx := device_from_mid sn sd s r []
    rw [mkMid_nil hdd] at hx
    exact hx
  simp only [c2, Bool.false_eq_true, if_false]
  rcases c3 : pyStartswith okey ("topaz." ++ sn) with _ | _
  case true =>
    simp only [c3, if_true]
    refine dispatch_case (fun r hdd => ?_) (fun hdd => protect_noDom hdd)
    have hx := protect_from_mid sn sd s r []
    rw [mkMid_nil hdd] at hx
    exact hx
  simp only [c3, Bool.false_eq_true, if_false]
  rcases c4 : pyStartswith okey ("kryptonite." ++ sn) with _ | _
  case true =>
    simp only [c4, if_true]
    refine dispatch_case (fun r hdd => ?_) (fun hdd => kryptonite_noDom hdd)
    have hx := kryptonite_from_mid sn sd s r []
    rw [mkMid_nil hdd] at hx
    exact hx
  simp only [c4, Bool.false_eq_true, if_false]
  rcases c5 : pyStartswith okey ("quartz." ++ sn) with _ | _
  case true =>
    simp only [c5, if_true]
    refine dispatch_case (fun r hdd => ?_) (fun hdd => camera_noDom hdd)
    have hx := camera_from_mid (cam sn) sn sd s r []
    rw [mkMid_nil hdd] at hx
    exact hx
  simp only [c5, Bool.false_eq_true, if_false]
  simp [planContD, mkMidD_nil, pure, Except.pure]

theorem mkMidD_append (s : NestState) (L M : List (String × String × JVal)) :
    mkMidD (mkMidD s L) M = mkMidD s (L ++ M) := by
  simp [mkMidD, applyDD_append]

theorem mkMidD_wheres (s : NestState) (L : List (String × String × JVal)) :
    (mkMidD s L).wheres = s.wheres := rfl

theorem mkMidD_dom (s : NestState) (L : List (String × String × JVal)) :
    (fun k => ((mkMidD s L).device_data k).isSome) =
      (fun k => (s.device_data k).isSome) := by
  funext k
  simp [mkMidD, applyDD_isSome]

theorem planContD_mk_none (s : NestState)
    (Lw : List (String × String × JVal)) :
    planContD s (Lw, none) = .ok (mkMidD s Lw) := rfl

theorem planContD_mk_some (s : NestState)
    (Lw : List (String × String × JVal)) (e : PyError) :
    planContD s (Lw, some e) = .error (e, mkMidD s Lw) := rfl

theorem planContD_seq_err (s : NestState)
    (Lw : List (String × String × JVal)) (e : PyError)
    (q : List (String × String × JVal) × Option PyError) :
    planContD s (planSeq (Lw, some e) q) = .error (e, mkMidD s Lw) := by
  simp [planSeq, planContD]

theorem planContD_seq_ok (s : NestState)
    (Lw : List (String × String × JVal))
    (q : List (String × String × JVal) × Option PyError) :
    planContD s (planSeq (Lw, none) q) = planContD (mkMidD s Lw) q := by
  rcases q with ⟨ql, qe⟩
  rcases qe with _ | e <;> simp [planSeq, planContD, mkMidD_append]

/-- Table-write plan of the device-pass loop. -/
def devBucketsPlan (cam : String → Except PyError RespVal)
    (w : JVal → Option JVal) (dom : String → Bool) :
    List JVal → List (String × String × JVal) × Option PyError
  | [] => ([], none)
  | b :: t => planSeq (devBucketPlan cam b w dom) (devBucketsPlan cam w dom t)

theorem device_buckets_char (cam : String → Except PyError RespVal)
    (bs : List JVal) : ∀ s : NestState,
    update_device_buckets cam bs s =
      planContD s (devBucketsPlan cam s.wheres
        (fun k => (s.device_data k).isSome) bs) := by
  induction bs with
  | nil =>
    intro s
    simp [update_device_buckets, devBucketsPlan, planContD_mk_none,
      mkMidD_nil]
  | cons b t ih =>
    intro s
    simp only [update_device_buckets, devBucketsPlan]
    rw [device_bucket_char]
    rcases hp : devBucketPlan cam b s.wheres
        (fun k => (s.device_data k).isSome) with ⟨PL, PE⟩
    rcases PE with _ | e
    case some =>
      simp [planContD_mk_some, planContD_seq_err, bind, Except.bind]
    simp only [planContD_mk_none, planContD_seq_ok, bind, Except.bind]
    rw [ih (mkMidD s PL)]
    simp only [mkMidD_wheres, mkMidD_dom]

/-- Table-write plan of the full device pass. -/
def devPassPlan (deviceResp : Except PyError RespVal)
    (cam : String → Except PyError RespVal) (w : JVal → Option JVal)
    (dom : String → Bool) : List (String × String × JVal) × Option PyError :=
  pstep deviceResp fun resp =>
  pstep (respGetE resp "updated_buckets") fun ubsv =>
  pstep (jAsIter ubsv) fun ubs =>
  devBucketsPlan cam w dom ubs

theorem device_pass_char (deviceResp : Except PyError RespVal)
    (cam : String → Except PyError RespVal) (s : NestState) :
    update_device_pass deviceResp cam s =
      planContD s (devPassPlan deviceResp cam s.wheres
        (fun k => (s.device_data k).isSome)) := by
  unfold update_device_pass devPassPlan
  rcases hr : deviceResp with e | resp
  · simp [stepE, bind, Except.bind, planContD_pstep_err]
  rcases hu : respGetE resp "updated_buckets" with e | ubsv
  · simp [*, stepE, bind, Except.bind, planContD_pstep_err,
      planContD_pstep_ok]
  rcases hi : jAsIter ubsv with e | ubs
  · simp [*, stepE, bind, Except.bind, planContD_pstep_err,
      planContD_pstep_ok]
  simp only [*, stepE, bind, Except.bind, planContD_pstep_ok]
  exact device_buckets_char cam ubs s

/-! ### The where pass as a location-map write plan -/

/-- Interpreting a location-map write plan at a state. -/
def planContW (s : NestState)
    (p : List (JVal × JVal) × Option PyError) :
    Except (PyError × NestState) NestState :=
  match p.2 with
  | none => .ok (mkMidW s p.1)
  | some e => .error (e, mkMidW s p.1)

theorem mkMidW_append (s : NestState) (L M : List (JVal × JVal)) :
    mkMidW (mkMidW s L) M = mkMidW s (L ++ M) := by
  simp [mkMidW, applyM_append]

theorem mkMidW_dd (s : NestState) (L : List (JVal × JVal)) :
    (mkMidW s L).device_data = s.device_data := rfl

theorem planContW_pstep_err {α : Type} (s : NestState) (e : PyError)
    (k : α → List (JVal × JVal) × Option PyError) :
    planContW s (pstep (Except.error e) k) = .error (e, s) := by
  simp [planContW, pstep, mkMidW_nil]

theorem planContW_pstep_ok {α : Type} (s : NestState) (a : α)
    (k : α → List (JVal × JVal) × Option PyError) :
    planContW s (pstep (Except.ok a) k) = planContW s (k a) := by
  simp [pstep]

theorem planContW_mk_none (s : NestState) (Lw : List (JVal × JVal)) :
    planContW s (Lw, none) = .ok (mkMidW s Lw) := rfl

theorem planContW_mk_some (s : NestState) (Lw : List (JVal × JVal))
    (e : PyError) :
    planContW s (Lw, some e) = .error (e, mkMidW s Lw) := rfl

theorem planContW_cons (s : NestState) (w : JVal × JVal)
    (q : List (JVal × JVal) × Option PyError) :
    planContW s (w :: q.1, q.2) = planContW (mkMidW s [w]) q := by
  rcases q with ⟨ql, qe⟩
  have : mkMidW (mkMidW s [w]) ql = mkMidW s (w :: ql) := by
    rw [mkMidW_append]
    simp
  rcases qe with _ | e <;> simp [planContW, this]

theorem planContW_seq_err (s : NestState) (Lw : List (JVal × JVal))
    (e : PyError) (q : List (JVal × JVal) × Option PyError) :
    planContW s (planSeq (Lw, some e) q) = .error (e, mkMidW s Lw) := by
  simp [planSeq, planContW]

theorem planContW_seq_ok (s : NestState) (Lw : List (JVal × JVal))
    (q : List (JVal × JVal) × Option PyError) :
    planContW s (planSeq (Lw, none) q) = planContW (mkMidW s Lw) q := by
  rcases q with ⟨ql, qe⟩
  rcases qe with _ | e <;> simp [planSeq, planContW, mkMidW_append]

/-- Write plan of the inner for-loop over one bucket's `wheres` list. -/
def wheresListPlan : List JVal → List (JVal × JVal) × Option PyError
  | [] => ([], none)
  | wv :: t =>
    pstep (jGetE wv "where_id") fun wid =>
    pstep (jGetE wv "name") fun nm =>
    ((wid, nm) :: (wheresListPlan t).1, (wheresListPlan t).2)

theorem merge_wheres_char (ws : List JVal) : ∀ s : NestState,
    merge_wheres_list ws s = planContW s (wheresListPlan ws) := by
  induction ws with
  | nil =>
    intro s
    simp [merge_wheres_list, wheresListPlan, planContW_mk_none, mkMidW_nil]
  | cons wv t ih =>
    intro s
    simp only [merge_wheres_list, wheresListPlan]
    rcases hw : jGetE wv "where_id" with e | wid
    · simp [stepE, bind, Except.bind, planContW_pstep_err]
    rcases hn : jGetE wv "name" with e | nm
    · simp [*, stepE, bind, Except.bind, planContW_pstep_err,
        planContW_pstep_ok]
    simp only [*, stepE, bind, Except.bind, planContW_pstep_ok,
      planContW_cons]
    have hst : ({ s with wheres := setM s.wheres wid nm } : NestState) =
        mkMidW s [(wid, nm)] := by
      simp [mkMidW, applyM_cons, applyM_nil]
    rw [hst]

/-- Write plan of one where-pass bucket. -/
def whereBucketPlan (bucket : JVal) : List (JVal × JVal) × Option PyError :=
  pstep (jGetE bucket "value") fun sensor_data =>
  pstep (jGetE bucket "object_key") fun okv =>
  pstep (jAsStr okv) fun okey =>
  pstep (listIdxE (pySplit okey ".") 1) fun sn =>
  if pyStartswith okey ("where." ++ sn) then
    pstep (jGetE sensor_data "wheres") fun wheresv =>
    pstep (jAsIter wheresv) fun ws =>
    wheresListPlan ws
  else ([], none)

theorem where_bucket_char (bucket : JVal) (s : NestState) :
    update_where_bucket bucket s = planContW s (whereBucketPlan bucket) := by
  unfold update_where_bucket whereBucketPlan
  rcases hv : jGetE bucket "value" with e | sensor_data
  · simp [stepE, bind, Except.bind, planContW_pstep_err]
  rcases ho : jGetE bucket "object_key" with e | okv
  · simp [*, stepE, bind, Except.bind, planContW_pstep_err,
      planContW_pstep_ok]
  rcases hs : jAsStr okv with e | okey
  · simp [*, stepE, bind, Except.bind, planContW_pstep_err,
      planContW_pstep_ok]
  rcases hi : listIdxE (pySplit okey ".") 1 with e | sn
  · simp [*, stepE, bind, Except.bind, planContW_pstep_err,
      planContW_pstep_ok]
  simp only [*, stepE, bind, Except.bind, planContW_pstep_ok]
  rcases c1 : pyStartswith okey ("where." ++ sn) with _ | _
  case false =>
    simp [c1, planContW_mk_none, mkMidW_nil, pure, Except.pure]
  simp only [c1, if_true]
  rcases hwv : jGetE sensor_data "wheres" with e | wheresv
  · simp [*, stepE, bind, Except.bind, planContW_pstep_err]
  rcases hws : jAsIter wheresv with e | ws
  · simp [*, stepE, bind, Except.bind, planContW_pstep_err,
      planContW_pstep_ok]
  simp only [*, stepE, bind, Except.bind, planContW_pstep_ok]
  exact merge_wheres_char ws s

/-- Write plan of the where-pass loop. -/
def whereBucketsPlan : List JVal → List (JVal × JVal) × Option PyError
  | [] => ([], none)
  | b :: t => planSeq (whereBucketPlan b) (whereBucketsPlan t)

theorem where_buckets_char (bs : List JVal) : ∀ s : NestState,
    update_where_buckets bs s = planContW s (whereBucketsPlan bs) := by
  induction bs with
  | nil =>
    intro s
    simp [update_where_buckets, whereBucketsPlan, planContW_mk_none,
      mkMidW_nil]
  | cons b t ih =>
    intro s
    simp only [update_where_buckets, whereBucketsPlan]
    rw [where_bucket_char]
    rcases hp : whereBucketPlan b with ⟨PL, PE⟩
    rcases PE with _ | e
    case some =>
      simp [planContW_mk_some, planContW_seq_err, bind, Except.bind]
    simp only [planContW_mk_none, planContW_seq_ok, bind, Except.bind]
    exact ih (mkMidW s PL)

/-- Write plan of the full where pass. -/
def wherePassPlan (whereResp : Except PyError RespVal) :
    List (JVal × JVal) × Option PyError :=
  pstep whereResp fun resp =>
  pstep (respGetE resp "updated_buckets") fun ubsv =>
  pstep (jAsIter ubsv) fun ubs =>
  whereBucketsPlan ubs

theorem where_pass_char (whereResp : Except PyError RespVal)
    (s : NestState) :
    update_where_pass whereResp s = planContW s (wherePassPlan whereResp) := by
  unfold update_where_pass wherePassPlan
  rcases hr : whereResp with e | resp
  · simp [stepE, bind, Except.bind, planContW_pstep_err]
  rcases hu : respGetE resp "updated_buckets" with e | ubsv
  · simp [*, stepE, bind, Except.bind, planContW_pstep_err,
      planContW_pstep_ok]
  rcases hi : jAsIter ubsv with e | ubs
  · simp [*, stepE, bind, Except.bind, planContW_pstep_err,
      planContW_pstep_ok]
  simp only [*, stepE, bind, Except.bind, planContW_pstep_ok]
  exact where_buckets_char ubs s

/-! ### update_body as two pure plans, and idempotence of update() -/

theorem mkMidW_wheres (s : NestState) (L : List (JVal × JVal)) :
    (mkMidW s L).wheres = applyM L s.wheres := rfl

theorem update_body_char (b : Backend) (s : NestState) :
    update_body b s =
      match (wherePassPlan b.whereResp).2 with
      | some e => .error (e, mkMidW s (wherePassPlan b.whereResp).1)
      | none =>
        planContD (mkMidW s (wherePassPlan b.whereResp).1)
          (devPassPlan b.deviceResp b.cameraResp
            (applyM (wherePassPlan b.whereResp).1 s.wheres)
            (fun k => (s.device_data k).isSome)) := by
  unfold update_body
  rw [where_pass_char]
  rcases hW : wherePassPlan b.whereResp with ⟨WL, WE⟩
  rcases WE with _ | e
  case some =>
    simp [planContW_mk_some, bind, Except.bind]
  simp only [planContW_mk_none, bind, Except.bind]
  rw [device_pass_char]
  simp only [mkMidW_wheres, mkMidW_dd]

theorem mkMidW_self {s : NestState} {L : List (JVal × JVal)}
    (h : applyM L s.wheres = s.wheres) : mkMidW s L = s := by
  unfold mkMidW
  rw [h]

theorem mkMidD_self {s : NestState} {L : List (String × String × JVal)}
    (h : applyDD L s.device_data = s.device_data) : mkMidD s L = s := by
  unfold mkMidD
  rw [h]

/-- C8. `update()` is idempotent against an unchanged backend: whenever a
first `update()` returns normally in state `s₁`, a second `update()` with
the identical backend responses returns normally and leaves the whole
client state - the device table with every display name and derived action
field, and the location map - exactly equal to `s₁`. -/
theorem c8_update_idempotent (b : Backend) (s s₁ : NestState)
    (h : update b s = .ok s₁) : update b s₁ = .ok s₁ := by
  unfold update at h ⊢
  rw [update_body_char] at h
  rw [update_body_char]
  rcases hW : (wherePassPlan b.whereResp).2 with _ | e
  case some =>
    rw [hW] at h
    rcases hd1 : isDataShapeError e with _ | _ <;>
      rcases hd2 : isExceptionClass e with _ | _ <;>
        simp only [hd1, hd2, Bool.false_eq_true, if_false, if_true] at h
    case false.false => exact absurd h (by simp)
    all_goals {
      have hs1 : mkMidW s (wherePassPlan b.whereResp).1 = s₁ := by
        simpa using h
      have hwh : applyM (wherePassPlan b.whereResp).1 s₁.wheres =
          s₁.wheres := by
        rw [← hs1, mkMidW_wheres, applyM_idem]
      rw [mkMidW_self hwh]
      simp [hd1, hd2]
    }
  rw [hW] at h
  rcases hD : (devPassPlan b.deviceResp b.cameraResp
      (applyM (wherePassPlan b.whereResp).1 s.wheres)
      (fun k => (s.device_data k).isSome)) with ⟨DL, DE⟩
  rw [hD] at h
  rcases DE with _ | e
  case none =>
    simp only [planContD_mk_none] at h
    have hs1 : mkMidD (mkMidW s (wherePassPlan b.whereResp).1) DL = s₁ := by
      simpa using h
    have hwh0 : s₁.wheres =
        applyM (wherePassPlan b.whereResp).1 s.wheres := by
      rw [← hs1]
      rfl
    have hdd0 : s₁.device_data = applyDD DL s.device_data := by
      rw [← hs1]
      rfl
    have hargs : applyM (wherePassPlan b.whereResp).1 s₁.wheres =
        applyM (wherePassPlan b.whereResp).1 s.wheres := by
      rw [hwh0, applyM_idem]
    have hdomf : (fun k => (s₁.device_data k).isSome) =
        (fun k => (s.device_data k).isSome) := by
      funext k
      rw [hdd0, applyDD_isSome]
    have hmw : mkMidW s₁ (wherePassPlan b.whereResp).1 = s₁ :=
      mkMidW_self (by rw [hargs, ← hwh0])
    have hmd : mkMidD s₁ DL = s₁ :=
      mkMidD_self (by rw [hdd0, applyDD_idem])
    rw [hargs, hdomf, hD, hmw]
    simp [planContD_mk_none, hmd]
  case some =>
    simp only [planContD_mk_some] at h
    rcases hd1 : isDataShapeError e with _ | _ <;>
      rcases hd2 : isExceptionClass e with _ | _ <;>
        simp only [hd1, hd2, Bool.false_eq_true, if_false, if_true] at h
    case false.false => exact absurd h (by simp)
    all_goals {
      have hs1 : mkMidD (mkMidW s (wherePassPlan b.whereResp).1) DL = s₁ := by
        simpa using h
      have hwh0 : s₁.wheres =
          applyM (wherePassPlan b.whereResp).1 s.wheres := by
        rw [← hs1]
        rfl
      have hdd0 : s₁.device_data = applyDD DL s.device_data := by
        rw [← hs1]
        rfl
      have hargs : applyM (wherePassPlan b.whereResp).1 s₁.wheres =
          applyM (wherePassPlan b.whereResp).1 s.wheres := by
        rw [hwh0, applyM_idem]
      have hdomf : (fun k => (s₁.device_data k).isSome) =
          (fun k => (s.device_data k).isSome) := by
        funext k
        rw [hdd0, applyDD_isSome]
      have hmw : mkMidW s₁ (wherePassPlan b.whereResp).1 = s₁ :=
        mkMidW_self (by rw [hargs, ← hwh0])
      have hmd : mkMidD s₁ DL = s₁ :=
        mkMidD_self (by rw [hdd0, applyDD_idem])
      rw [hargs, hdomf, hD, hmw]
      simp [planContD_mk_some, hmd, hd1, hd2]
    }

/-- State for the C8 witness: discovery found one temperature sensor K1. -/
def c8St : NestState :=
  { initState "tok" with
      temperature_sensors := ["K1"],
      device_data := fun k => if k = "K1" then some emptyRec else none }

/-- Backend for the C8 witness: one where bucket and one complete
kryptonite bucket. -/
def c8Backend : Backend :=
  ⟨.ok (.jval (.jobj [("updated_buckets", .jarr [.jobj [
      ("object_key", .jstr "where.W1"),
      ("value", .jobj [("wheres", .jarr [.jobj [
        ("where_id", .jstr "W1"), ("name", .jstr "Porch")]])])]])])),
   .ok (.jval (.jobj [("updated_buckets", .jarr [.jobj [
      ("object_key", .jstr "kryptonite.K1"),
      ("value", .jobj [("where_id", .jstr "W1"),
        ("current_temperature", .jnum 19),
        ("battery_level", .jnum 80)])]])])),
   fun _ => .ok .raw⟩

/-- The state after the first update() of the C8 witness run. -/
def c8St1 : NestState :=
  match update c8Backend c8St with
  | .ok t => t
  | .error (_, t) => t

theorem c8_witness :
    update c8Backend c8St = Except.ok c8St1 ∧
    update c8Backend c8St1 = Except.ok c8St1 :=
  ⟨rfl, c8_update_idempotent c8Backend c8St c8St1 rfl⟩

/-! ## C6: every listed device id has a device-table entry -/

/-- The six category lists in one view. -/
def allIds (s : NestState) : List String :=
  s.thermostats ++ s.temperature_sensors ++ s.hotwatercontrollers ++
  s.cameras ++ s.switches ++ s.protects

/-- The table invariant of the claim: every listed id has a table entry. -/
def tableInv (s : NestState) : Bool :=
  (allIds s).all fun sn => (s.device_data sn).isSome

theorem tableInv_mkMidW {s : NestState} {L : List (JVal × JVal)}
    (h : tableInv s = true) : tableInv (mkMidW s L) = true := h

theorem tableInv_mkMidD {s : NestState} {L : List (String × String × JVal)}
    (h : tableInv s = true) : tableInv (mkMidD s L) = true := by
  simp only [tableInv, List.all_eq_true] at h ⊢
  intro k hk
  have hx := h k hk
  simp only [mkMidD, applyDD_isSome]
  exact hx

theorem update_inv (b : Backend) (s : NestState)
    (hInv : tableInv s = true) : tableInv (stOf (update b s)) = true := by
  unfold update
  rw [update_body_char]
  rcases hW : (wherePassPlan b.whereResp).2 with _ | e
  case some =>
    rcases hd1 : isDataShapeError e with _ | _ <;>
      rcases hd2 : isExceptionClass e with _ | _ <;>
        simp only [hd1, hd2, Bool.false_eq_true, if_false, if_true, stOf] <;>
        exact tableInv_mkMidW hInv
  rcases hD : (devPassPlan b.deviceResp b.cameraResp
      (applyM (wherePassPlan b.whereResp).1 s.wheres)
      (fun k => (s.device_data k).isSome)) with ⟨DL, DE⟩
  have hmid : tableInv (mkMidD
      (mkMidW s (wherePassPlan b.whereResp).1) DL) = true :=
    tableInv_mkMidD (tableInv_mkMidW hInv)
  rcases DE with _ | e
  case none =>
    simp only [planContD_mk_none, stOf]
    exact hmid
  case some =>
    rcases hd1 : isDataShapeError e with _ | _ <;>
      rcases hd2 : isExceptionClass e with _ | _ <;>
        simp only [planContD_mk_some, hd1, hd2, Bool.false_eq_true,
          if_false, if_true, stOf] <;>
        exact hmid

theorem inv_step_insert {s : NestState} {sn : String} {v : Rec}
    (hInv : tableInv s = true) (s' : NestState)
    (hdd : s'.device_data = setM s.device_data sn v)
    (hids : ∀ k, k ∈ allIds s' → k ∈ allIds s ∨ k = sn) :
    tableInv s' = true := by
  simp only [tableInv, List.all_eq_true] at hInv ⊢
  intro k hk
  rcases hids k hk with hmem | rfl
  · have hx := hInv k hmem
    by_cases hks : k = sn
    · subst hks
      simp [hdd, setM]
    · simp only [hdd, setM, if_neg hks]
      exact hx
  · simp [hdd, setM]

theorem get_devices_buckets_inv (r : RespVal) (bs : List JVal) :
    ∀ s : NestState, tableInv s = true → ∀ s',
      get_devices_buckets r bs s = .ok s' → tableInv s' = true := by
  induction bs with
  | nil =>
    intro s hInv s' h
    simp only [get_devices_buckets] at h
    cases h
    exact hInv
  | cons bv t ih =>
    intro s hInv s' h
    simp only [get_devices_buckets] at h
    rcases hb : jAsStr bv with e | bucket
    · rw [hb] at h
      simp [stepE, bind, Except.bind] at h
    rw [hb] at h
    simp only [stepE, bind, Except.bind] at h
    rcases c1 : pyStartswith bucket "topaz." with _ | _ <;> rw [c1] at h
    case true =>
      simp only [if_true] at h
      rcases ho : respGetDE r "objects" (.jobj []) with e | objectsv
      · rw [ho] at h
        simp [stepE, bind, Except.bind] at h
      rw [ho] at h
      simp only [stepE, bind, Except.bind] at h
      rcases hbd : jGetDE objectsv bucket (.jobj []) with e | bucket_data
      · rw [hbd] at h
        simp [stepE, bind, Except.bind] at h
      rw [hbd] at h
      simp only [stepE, bind, Except.bind] at h
      rcases hsd : protect_seed_rec bucket_data with e | seed
      · rw [hsd] at h
        simp [stepE, bind, Except.bind] at h
      rw [hsd] at h
      simp only [stepE, bind, Except.bind, pure, Except.pure] at h
      refine ih _ ?_ s' h
      refine inv_step_insert hInv _ rfl ?_
      intro k hk
      simp only [allIds, List.mem_append, List.mem_singleton] at hk ⊢
      tauto
    simp only [Bool.false_eq_true, if_false] at h
    rcases c2 : pyStartswith bucket "kryptonite." with _ | _ <;> rw [c2] at h
    case true =>
      simp only [if_true, pure, Except.pure, bind, Except.bind] at h
      refine ih _ ?_ s' h
      refine inv_step_insert hInv _ rfl ?_
      intro k hk
      simp only [allIds, List.mem_append, List.mem_singleton] at hk ⊢
      tauto
    simp only [Bool.false_eq_true, if_false] at h
    rcases c3 : pyStartswith bucket "device." with _ | _ <;> rw [c3] at h
    case true =>
      simp only [if_true, pure, Except.pure, bind, Except.bind] at h
      refine ih _ ?_ s' h
      refine inv_step_insert hInv _ rfl ?_
      intro k hk
      simp only [allIds, List.mem_append, List.mem_singleton] at hk ⊢
      tauto
    simp only [Bool.false_eq_true, if_false] at h
    rcases c4 : pyStartswith bucket "quartz." with _ | _ <;> rw [c4] at h
    case true =>
      simp only [if_true, pure, Except.pure, bind, Except.bind] at h
      refine ih _ ?_ s' h
      refine inv_step_insert hInv _ rfl ?_
      intro k hk
      simp only [allIds, List.mem_append, List.mem_singleton] at hk ⊢
      tauto
    simp only [Bool.false_eq_true, if_false, pure, Except.pure, bind,
      Except.bind] at h
    exact ih s hInv s' h

theorem get_devices_inv (resp : Except PyError RespVal) (s : NestState)
    (hInv : tableInv s = true) (s' : NestState)
    (h : get_devices resp s = .ok s') : tableInv s' = true := by
  unfold get_devices at h
  rcases resp with e | r
  · simp [stepE, bind, Except.bind] at h
  simp only [stepE, bind, Except.bind] at h
  rcases h1 : respGetE r "service_urls" with e | su
  · rw [h1] at h
    simp at h
  rw [h1] at h
  simp only [stepE, bind, Except.bind] at h
  rcases h2 : jGetE su "urls" with e | urls
  · rw [h2] at h
    simp at h
  rw [h2] at h
  simp only [stepE, bind, Except.bind] at h
  rcases h3 : jGetE urls "czfe_url" with e | czfe
  · rw [h3] at h
    simp at h
  rw [h3] at h
  simp only [stepE, bind, Except.bind] at h
  rcases h4 : respGetE r "updated_buckets" with e | ubs
  · rw [h4] at h
    simp at h
  rw [h4] at h
  simp only [stepE, bind, Except.bind] at h
  rcases h5 : jIdxE ubs 0 with e | b0
  · rw [h5] at h
    simp at h
  rw [h5] at h
  simp only [stepE, bind, Except.bind] at h
  rcases h6 : jGetE b0 "value" with e | valv
  · rw [h6] at h
    simp at h
  rw [h6] at h
  simp only [stepE, bind, Except.bind] at h
  rcases h7 : jGetE valv "buckets" with e | bucketsv
  · rw [h7] at h
    simp at h
  rw [h7] at h
  simp only [stepE, bind, Except.bind] at h
  rcases h8 : jAsIter bucketsv with e | buckets
  · rw [h8] at h
    simp at h
  rw [h8] at h
  simp only [stepE, bind, Except.bind] at h
  refine get_devices_buckets_inv r buckets _ ?_ s' h
  exact hInv

theorem runCommand_frame (c : Command) (env : CmdEnv) :
    ∀ fuel i j : Nat, ∀ s s' : NestState,
      resStateOf (runCommand c env fuel i j s).res = some s' →
      ∃ t, s' = { s with access_token := t } := by
  intro fuel
  induction fuel with
  | zero =>
    intro i j s s' h
    simp [runCommand, resStateOf] at h
  | succ n ih =>
    intro i j s s' h
    unfold runCommand at h
    by_cases hg : c.device_id ∈ guardList c s
    · rw [if_pos hg] at h
      rcases hp : build_payload c s with e | p <;> rw [hp] at h
      · simp only [resStateOf, Option.some.injEq] at h
        exact ⟨s.access_token, by rw [← h]⟩
      rcases ho : env.outs i with _ | _ <;> rw [ho] at h
      · simp only [resStateOf, Option.some.injEq] at h
        exact ⟨s.access_token, by rw [← h]⟩
      rcases hl : env.logs j with _ | tok <;> rw [hl] at h
      · simp only [resStateOf, Option.some.injEq] at h
        exact ⟨s.access_token, by rw [← h]⟩
      simp only [resStateOf] at h
      obtain ⟨t, ht⟩ :=
        ih (i + 1) (j + 1) { s with access_token := tok } s' h
      exact ⟨t, by rw [ht]⟩
    · rw [if_neg hg] at h
      simp only [resStateOf, Option.some.injEq] at h
      exact ⟨s.access_token, by rw [← h]⟩

/-- C6.  Every device id in the six category lists has a device-table entry:
this holds from construction, is established by discovery (each branch that
appends an id also seeds its record), is preserved by every update() call
(decoders only ever overwrite fields of existing entries and never remove
one), and by every command call (commands never touch the table or the
lists, only the access token). -/
theorem c6_table_invariant :
    (∀ tok, tableInv (initState tok) = true) ∧
    (∀ resp s s', tableInv s = true → get_devices resp s = .ok s' →
      tableInv s' = true) ∧
    (∀ b s, tableInv s = true → tableInv (stOf (update b s)) = true) ∧
    (∀ c env fuel i j s s', tableInv s = true →
      resStateOf (runCommand c env fuel i j s).res = some s' →
      tableInv s' = true) := by
  refine ⟨fun tok => rfl, ?_, ?_, ?_⟩
  · intro resp s s' hInv h
    exact get_devices_inv resp s hInv s' h
  · intro b s hInv
    exact update_inv b s hInv
  · intro c env fuel i j s s' hInv h
    obtain ⟨t, rfl⟩ := runCommand_frame c env fuel i j s s' h
    exact hInv

/-- State for the C6 witness: discovery found one thermostat T9. -/
def c6St : NestState :=
  { initState "tok" with
      thermostats := ["T9"],
      device_data := fun k => if k = "T9" then some emptyRec else none }

/-- Backend for the C6 witness: two empty bucket lists. -/
def c6Backend : Backend :=
  ⟨.ok (.jval (.jobj [("updated_buckets", .jarr [])])),
   .ok (.jval (.jobj [("updated_buckets", .jarr [])])),
   fun _ => .ok .raw⟩

theorem c6_witness :
    tableInv (initState "tok") = true ∧
    tableInv (stOf (update c6Backend c6St)) = true :=
  ⟨c6_table_invariant.1 "tok",
   c6_table_invariant.2.2.1 c6Backend c6St rfl⟩
